import Mathlib

/-!
Verification of the `Data_Collection` startup-signal pipeline.

This file shallowly embeds the Python package `src/data_collection` in Lean 4:

* `Value` models a Python object as it occurs in the pipeline's payloads
  (`None`, `bool`, `int`, `float`, `str`, `list`, `dict` with string keys);
  Python floats are modelled as exact rationals.  A Python `dict` is modelled
  as an insertion-ordered association list (Python dicts preserve insertion
  order; `d[k] = v` updates in place or appends).
* `OpenDataSource._deep_merge` (sources/open_data.py) and
  `FeatureCollector._merge_payloads` (pipeline.py) are embedded as `deepMerge`
  and `mergeStep`/`mergeInto`/`mergePayloads`; the latter can raise, so it
  returns `Except`.
* The three feature blocks (features/founder.py, features/prediction.py,
  features/external.py) are embedded as `founderBuild`, `predictionBuild`,
  `externalBuild`; fallible coercions (`int(...)`, `float(...)`, attribute
  access on non-dicts) are modelled with `Except PyErr`.
* `OpenDataSource.fetch` is embedded with its network sub-request results and
  founder enrichment passed in as parameters, since those depend on I/O.

Theorems at the end settle the specification claims against these
definitions.
-/

/-- Python exception kinds raised by the embedded code paths. -/
inductive PyErr where
  | valueError
  | typeError
  | attributeError
  | fileNotFound
  deriving DecidableEq, Repr

/-- A Python value as it occurs in pipeline payloads.  Floats are modelled as
exact rationals; dicts are insertion-ordered association lists with string
keys. -/
inductive Value where
  | none
  | bool (b : Bool)
  | int (n : Int)
  | float (q : ℚ)
  | str (s : String)
  | list (xs : List Value)
  | dict (xs : List (String × Value))
  deriving Repr

/-- A Python dict with string keys (insertion-ordered association list). -/
abbrev PyDict := List (String × Value)

/-- `k in d` / `d.get(k)` lookup: first entry with the given key. -/
def dictLookup (d : PyDict) (k : String) : Option Value :=
  match d with
  | [] => Option.none
  | (k', v) :: rest => if k' = k then some v else dictLookup rest k

/-- Python `d[k] = v` on an insertion-ordered dict: replace the value in
place if the key exists, otherwise append the new entry. -/
def setKey (d : PyDict) (k : String) (v : Value) : PyDict :=
  match d with
  | [] => [(k, v)]
  | (k', v') :: rest => if k' = k then (k, v) :: rest else (k', v') :: setKey rest k v

/-- Python `{**a, **b}`: start from `a`, then assign each entry of `b` in
order. -/
def dictUpdate (a b : PyDict) : PyDict :=
  b.foldl (fun acc kv => setKey acc kv.1 kv.2) a

/-- Python `d.get(k)` (default `None`). -/
def pyGet (d : PyDict) (k : String) : Value :=
  (dictLookup d k).getD Value.none

/-- Python `d.get(k, dflt)`. -/
def pyGetD (d : PyDict) (k : String) (dflt : Value) : Value :=
  (dictLookup d k).getD dflt

/-- `value is None`. -/
def isNone : Value → Bool
  | .none => true
  | _ => false

/-- `isinstance(value, dict)`. -/
def isDict : Value → Bool
  | .dict _ => true
  | _ => false

/-- `isinstance(value, list)`. -/
def isList : Value → Bool
  | .list _ => true
  | _ => false

/-- A scalar in the sense of the payload data model: neither a mapping nor a
sequence. -/
def isScalar (v : Value) : Bool :=
  !isDict v && !isList v

/-- Python truthiness of a value (`bool(v)`). -/
def pyTruthy : Value → Bool
  | .none => false
  | .bool b => b
  | .int n => n ≠ 0
  | .float q => q ≠ 0
  | .str s => s ≠ ""
  | .list xs => !xs.isEmpty
  | .dict xs => !xs.isEmpty

/-- Python iteration `[*v]`: lists yield their elements, dicts their keys,
strings their characters; other values raise `TypeError`. -/
def pyIter : Value → Except PyErr (List Value)
  | .list xs => .ok xs
  | .dict xs => .ok (xs.map fun kv => Value.str kv.1)
  | .str s => .ok (s.toList.map fun c => Value.str (String.mk [c]))
  | _ => .error .typeError

/-- Python mapping-splat `{**v}`: only dicts are mappings here; anything else
raises `TypeError`. -/
def pyMapping : Value → Except PyErr PyDict
  | .dict xs => .ok xs
  | _ => .error .typeError

mutual

/-- The body of the `for key, value in update.items()` loop of
`OpenDataSource._deep_merge` (sources/open_data.py lines 102-113), for a
single entry: insert a missing key, recursively merge dict-vs-dict,
concatenate list-vs-list, and otherwise overwrite only when the incoming
value is not `None`. -/
def deepMergeEntry (base : PyDict) (k : String) (v : Value) : PyDict :=
  match dictLookup base k, v with
  | Option.none, _ => setKey base k v
  | some (.dict od), .dict vd => setKey base k (.dict (deepMerge od vd))
  | some (.list ol), .list vl => setKey base k (.list (ol ++ vl))
  | some _, .none => base
  | some _, _ => setKey base k v
termination_by sizeOf v
decreasing_by
  all_goals simp_wf

/-- `OpenDataSource._deep_merge`: fold the entries of `upd` into `base` in
order.  The Python code contains no raising operation, so the embedding is a
total function. -/
def deepMerge : PyDict → PyDict → PyDict
  | base, [] => base
  | base, (k, v) :: rest => deepMerge (deepMergeEntry base k v) rest
termination_by _ u => sizeOf u
decreasing_by
  all_goals simp_wf
  all_goals omega

end

/-- One key-value step of `FeatureCollector._merge_payloads`
(pipeline.py lines 44-53): missing key inserts; incoming dict shallow-merges
via `{**merged[key], **value}` (raising `TypeError` if the existing value is
not a mapping); incoming list concatenates via `[*merged[key], *value]`
(raising `TypeError` if the existing value is not iterable); anything else
overwrites unconditionally, null included. -/
def mergeStep (m : PyDict) (k : String) (v : Value) : Except PyErr PyDict :=
  match dictLookup m k with
  | Option.none => .ok (setKey m k v)
  | some old =>
    match v with
    | .dict vs => do
      let os ← pyMapping old
      .ok (setKey m k (.dict (dictUpdate os vs)))
    | .list vs => do
      let ol ← pyIter old
      .ok (setKey m k (.list (ol ++ vs)))
    | _ => .ok (setKey m k v)

/-- The inner loop of `FeatureCollector._merge_payloads`: fold one incoming
payload into the accumulator, key by key in payload order. -/
def mergeInto (m : PyDict) : PyDict → Except PyErr PyDict
  | [] => .ok m
  | (k, v) :: rest => do
    let m' ← mergeStep m k v
    mergeInto m' rest

/-- `FeatureCollector._merge_payloads` (pipeline.py lines 42-54): fold the
payloads into an initially empty accumulator in order. -/
def mergePayloads (ps : List PyDict) : Except PyErr PyDict :=
  ps.foldlM mergeInto []

/-- Value of a string of decimal digits. -/
def digitsToNat (cs : List Char) : Nat :=
  cs.foldl (fun n c => 10 * n + (c.toNat - 48)) 0

/-- Split a leading run of decimal digits from a character list. -/
def spanDigits (cs : List Char) : List Char × List Char :=
  (cs.takeWhile Char.isDigit, cs.dropWhile Char.isDigit)

/-- Parse an optional leading sign, returning the sign as `1` or `-1`. -/
def takeSign : List Char → Int × List Char
  | '+' :: rest => (1, rest)
  | '-' :: rest => (-1, rest)
  | cs => (1, cs)

/-- Parse the exponent suffix of a float literal (`e`/`E`, sign, digits);
`none` when the characters do not form a valid exponent or are nonempty
leftovers. -/
def parseExponent : List Char → Option Int
  | [] => some 0
  | e :: rest =>
    if e = 'e' ∨ e = 'E' then
      let (sgn, rest') := takeSign rest
      let (ds, rest'') := spanDigits rest'
      if ds.isEmpty ∨ ¬rest''.isEmpty then Option.none
      else some (sgn * (digitsToNat ds : Int))
    else Option.none

/-- Parse the body of a Python float literal: digits with an optional
fractional part (at least one digit overall) and an optional exponent.
Python's `float()` additionally accepts `inf`/`nan` spellings and digit
underscores, which never occur in this pipeline's data and are not
modelled. -/
def parseFloatBody (cs : List Char) : Option ℚ :=
  let (sgn, cs₁) := takeSign cs
  let (intDs, cs₂) := spanDigits cs₁
  let fracDs :=
    match cs₂ with
    | '.' :: rest => rest.takeWhile Char.isDigit
    | _ => []
  let cs₄ := match cs₂ with
    | '.' :: rest => rest.dropWhile Char.isDigit
    | _ => cs₂
  if intDs.isEmpty ∧ fracDs.isEmpty then Option.none
  else
    match parseExponent cs₄ with
    | Option.none => Option.none
    | some e =>
      let mantissa : ℚ :=
        (digitsToNat intDs : ℚ) + (digitsToNat fracDs : ℚ) / (10 : ℚ) ^ fracDs.length
      let scaled := if e ≥ 0 then mantissa * (10 : ℚ) ^ e.toNat else mantissa / (10 : ℚ) ^ (-e).toNat
      some ((sgn : ℚ) * scaled)

/-- Python `float(s)` on a string: strip surrounding whitespace, then parse a
float literal; `none` models the `ValueError` on failure. -/
def pyFloatOfStr (s : String) : Option ℚ :=
  parseFloatBody s.trim.toList

/-- Python `int(s)` on a string: strip whitespace, then an optional sign and
a nonempty digit run (so `int("3.5")` fails). -/
def pyIntOfStr (s : String) : Option Int :=
  let (sgn, cs) := takeSign s.trim.toList
  let (ds, rest) := spanDigits cs
  if ds.isEmpty ∨ ¬rest.isEmpty then Option.none
  else some (sgn * (digitsToNat ds : Int))

/-- Truncation toward zero, as Python `int()` applied to a float. -/
def ratTrunc (q : ℚ) : Int :=
  if q < 0 then ⌈q⌉ else ⌊q⌋

/-- Python `float(v)`: numbers and bools convert, numeric strings parse
(`ValueError` otherwise), everything else raises `TypeError`. -/
def pyFloat : Value → Except PyErr ℚ
  | .int n => .ok n
  | .float q => .ok q
  | .bool b => .ok (if b then 1 else 0)
  | .str s =>
    match pyFloatOfStr s with
    | some q => .ok q
    | Option.none => .error .valueError
  | _ => .error .typeError

/-- Python `int(v)`: ints pass through, bools become 0/1, floats truncate
toward zero, integer strings parse (`ValueError` otherwise), everything else
raises `TypeError`. -/
def pyInt : Value → Except PyErr Int
  | .int n => .ok n
  | .bool b => .ok (if b then 1 else 0)
  | .float q => .ok (ratTrunc q)
  | .str s =>
    match pyIntOfStr s with
    | some n => .ok n
    | Option.none => .error .valueError
  | _ => .error .typeError

/-- ASCII lowercasing of a string, as Python `str.lower()` on the ASCII
identifiers used by the founder block. -/
def lowerStr (s : String) : String :=
  String.mk (s.toList.map Char.toLower)

/-- Python `v.lower()`: defined on strings only; any other value raises
`AttributeError`. -/
def pyLower : Value → Except PyErr String
  | .str s => .ok (lowerStr s)
  | _ => .error .attributeError

/-- A parsed founder record (`FounderProfile` dataclass plus the coercions of
`FounderFeatureBlock._parse_founder`): `bool(...)`, `int(...)` and
`float(...)` are applied by the parser, while `name`, `education_level` and
`school_tier` are stored as-is. -/
structure FounderProfile where
  name : Value
  education_level : Value
  school_tier : Value
  leadership_experience : Bool
  top_company_experience : Bool
  previous_exits : Int
  role_alignment : ℚ
  deriving Repr

/-- `FounderFeatureBlock._parse_founder` (features/founder.py lines 49-58). -/
def parseFounder (f : PyDict) : Except PyErr FounderProfile := do
  let exits ← pyInt (pyGetD f "previous_exits" (.int 0))
  let alignment ← pyFloat (pyGetD f "role_alignment" (.float 0))
  .ok {
    name := pyGetD f "name" (.str "Unknown")
    education_level := pyGetD f "education_level" (.str "Unknown")
    school_tier := pyGetD f "school_tier" (.str "Unknown")
    leadership_experience := pyTruthy (pyGetD f "leadership_experience" (.bool false))
    top_company_experience := pyTruthy (pyGetD f "top_company_experience" (.bool false))
    previous_exits := exits
    role_alignment := alignment
  }

/-- `FounderFeatureBlock._education_score` (features/founder.py lines 78-88):
lowercase the level and tier (an `AttributeError` on non-strings), then a base
score by degree plus a school-tier bonus. -/
def educationScore (level tier : Value) : Except PyErr ℚ := do
  let l ← pyLower level
  let t ← pyLower tier
  let base : ℚ :=
    if l = "phd" then 2.5
    else if l = "masters" then 2.0
    else if l = "bachelors" then 1.5
    else if l = "associate" then 1.0
    else 0.5
  let tierBonus : ℚ :=
    if t = "tier-1" then 1.5
    else if t = "tier-2" then 1.0
    else if t = "tier-3" then 0.5
    else 0.0
  .ok (base + tierBonus)

/-- The per-founder summand of `FounderFeatureBlock._aggregate_level`:
education score, leadership and top-company bonuses, and capped exits. -/
def founderScore (f : FounderProfile) : Except PyErr ℚ := do
  let e ← educationScore f.education_level f.school_tier
  .ok (e + (if f.leadership_experience then 1.0 else 0.0)
    + (if f.top_company_experience then 1.5 else 0.0)
    + (min f.previous_exits 2 : ℚ) * 1.5)

/-- The accumulated score of the `for founder in founders` loop in
`_aggregate_level`. -/
def totalScore : List FounderProfile → Except PyErr ℚ
  | [] => .ok 0
  | f :: fs => do
    let s ← founderScore f
    let rest ← totalScore fs
    .ok (s + rest)

/-- The threshold classification at the end of `_aggregate_level`. -/
def levelOfAvg (avg : ℚ) : String :=
  if avg ≥ 5.0 then "L5"
  else if avg ≥ 4.0 then "L4"
  else if avg ≥ 3.0 then "L3"
  else if avg ≥ 1.5 then "L2"
  else "L1"

/-- `FounderFeatureBlock._aggregate_level` (features/founder.py lines
60-76). -/
def aggregateLevel (founders : List FounderProfile) : Except PyErr String := do
  let score ← totalScore founders
  .ok (levelOfAvg (score / (max founders.length 1 : ℚ)))

/-- The ordinal position of a founder level in `L1 < L2 < L3 < L4 < L5`. -/
def levelRank (l : String) : Nat :=
  if l = "L1" then 1
  else if l = "L2" then 2
  else if l = "L3" then 3
  else if l = "L4" then 4
  else if l = "L5" then 5
  else 0

/-- The `founders` section as the iterable the founder block loops over:
absent means `[]`; a dict iterates its keys and a string its characters; a
non-iterable raises `TypeError`. -/
def foundersIterable (payload : PyDict) : Except PyErr (List Value) :=
  match dictLookup payload "founders" with
  | Option.none => .ok []
  | some v => pyIter v

/-- `_parse_founder` applied to one element of the founders iterable: the
element must be a dict for `.get` to exist. -/
def parseFounderValue (v : Value) : Except PyErr FounderProfile :=
  match v with
  | .dict f => parseFounder f
  | _ => .error .attributeError

/-- `FounderFeatureBlock.build` (features/founder.py lines 30-47): parse the
founder records, return the `L1`/`0.0`/`0` triple when there are none, and
otherwise the aggregate level, the clamped mean role alignment and the
count. -/
def founderBuild (payload : PyDict) : Except PyErr PyDict := do
  let founders ← foundersIterable payload
  let profiles ← founders.mapM parseFounderValue
  if profiles.isEmpty then
    .ok [("founder_level", .str "L1"), ("fifs_score", .float 0), ("founder_count", .int 0)]
  else do
    let level ← aggregateLevel profiles
    let alignments := profiles.map FounderProfile.role_alignment
    let fifs := alignments.sum / (alignments.length : ℚ)
    let normalized := max (min fifs 1) (-1)
    .ok [("founder_level", .str level), ("fifs_score", .float normalized),
      ("founder_count", .int profiles.length)]

/-- Python `v.get(k)` on an arbitrary value: only dicts have `.get`, so any
other receiver raises `AttributeError`; a missing key yields `None`. -/
def vGetOpt (v : Value) (k : String) : Except PyErr Value :=
  match v with
  | .dict d => .ok (pyGet d k)
  | _ => .error .attributeError

/-- Python `v.get(k, dflt)` on an arbitrary value. -/
def vGetD (v : Value) (k : String) (dflt : Value) : Except PyErr Value :=
  match v with
  | .dict d => .ok (pyGetD d k dflt)
  | _ => .error .attributeError

/-- Python `v >= c` for a float threshold `c`: numbers and bools compare,
anything else raises `TypeError`. -/
def pyGE (v : Value) (c : ℚ) : Except PyErr Bool :=
  match v with
  | .int n => .ok (c ≤ (n : ℚ))
  | .float q => .ok (c ≤ q)
  | .bool b => .ok (c ≤ if b then (1 : ℚ) else 0)
  | _ => .error .typeError

/-- Python `v <= c` for a float threshold `c`. -/
def pyLE (v : Value) (c : ℚ) : Except PyErr Bool :=
  match v with
  | .int n => .ok ((n : ℚ) ≤ c)
  | .float q => .ok (q ≤ c)
  | .bool b => .ok ((if b then (1 : ℚ) else 0) ≤ c)
  | _ => .error .typeError

/-- `PredictionFeatureBlock._to_number` (features/prediction.py lines 85-89):
`float(value)` with `TypeError`/`ValueError` caught and turned into `0.0`. -/
def toNumber (v : Value) : ℚ :=
  match pyFloat v with
  | .ok q => q
  | .error _ => 0

/-- `PredictionFeatureBlock._infer_industry_growth` (features/prediction.py
lines 44-54). -/
def inferIndustryGrowth (profile : Value) : Except PyErr Value := do
  let trend ← vGetOpt profile "industry_growth"
  if pyTruthy trend then .ok trend
  else do
    let marketGrowth ← vGetOpt profile "market_growth_rate"
    if isNone marketGrowth then .ok (.str "Unknown")
    else do
      let ge ← pyGE marketGrowth 0.15
      if ge then .ok (.str "Yes")
      else do
        let le ← pyLE marketGrowth 0
        if le then .ok (.str "No") else .ok (.str "N/A")

/-- `PredictionFeatureBlock._growth_speed` (features/prediction.py lines
57-67): `"Unknown"` when both inputs are `None`, otherwise the weighted score
`updates*0.6 + hires*0.4` bucketed at `>8` / `<3`. -/
def growthSpeed (profile hiring : Value) : Except PyErr String := do
  let updates ← vGetOpt profile "update_frequency_per_month"
  let hires ← vGetOpt hiring "net_new_roles_last_quarter"
  if isNone updates ∧ isNone hires then .ok "Unknown"
  else
    let score := toNumber updates * 0.6 + toNumber hires * 0.4
    if score > 8 then .ok "Faster"
    else if score < 3 then .ok "Slower"
    else .ok "Same"

/-- `PredictionFeatureBlock._execution` (features/prediction.py lines 69-83):
each term enters the score only when its input is present; the `float(...)`
coercions here are not caught, so they can raise. -/
def execution (product hiring : Value) : Except PyErr String := do
  let releaseFreq ← vGetOpt product "release_frequency_per_quarter"
  let seniorHires ← vGetOpt hiring "senior_ratio"
  if isNone releaseFreq ∧ isNone seniorHires then .ok "Unknown"
  else do
    let s₁ ← if isNone releaseFreq then pure (0 : ℚ) else do
      let q ← pyFloat releaseFreq
      pure (q / 4)
    let s₂ ← if isNone seniorHires then pure (0 : ℚ) else do
      let q ← pyFloat seniorHires
      pure (q * 2)
    let score := s₁ + s₂
    if score > 1.6 then .ok "Excellent"
    else if score < 0.8 then .ok "Poor"
    else .ok "Average"

/-- `PredictionFeatureBlock.build` (features/prediction.py lines 19-41): the
14 categorical fields, evaluated in the order of the Python dict literal. -/
def predictionBuild (payload : PyDict) : Except PyErr PyDict := do
  let profile := pyGetD payload "profile" (.dict [])
  let funding := pyGetD payload "funding" (.dict [])
  let sentiment := pyGetD payload "sentiment" (.dict [])
  let product := pyGetD payload "product" (.dict [])
  let hiring := pyGetD payload "hiring" (.dict [])
  let industryGrowth ← inferIndustryGrowth profile
  let marketSize ← vGetD profile "market_size" (.str "Unknown")
  let gspeed ← growthSpeed profile hiring
  let marketAdaptability ← vGetD product "pivot_history" (.str "Unknown")
  let execCapability ← execution product hiring
  let fundingAmount ← vGetD funding "stage" (.str "Unknown")
  let valuationTrend ← vGetD funding "valuation_trend" (.str "Unknown")
  let investorQuality ← vGetD funding "investor_quality" (.str "Unknown")
  let pmfStrength ← vGetD product "pmf" (.str "Unknown")
  let innovationMentions ← vGetD product "innovation_mentions" (.str "Unknown")
  let frontierTechUsage ← vGetD product "frontier_tech_usage" (.str "Unknown")
  let timing ← vGetD profile "timing" (.str "Unknown")
  let sentimentOverall ← vGetD sentiment "overall" (.str "Unknown")
  let reviews ← vGetD product "reviews" (.str "Unknown")
  .ok [("industry_growth", industryGrowth),
    ("market_size", marketSize),
    ("growth_speed", .str gspeed),
    ("market_adaptability", marketAdaptability),
    ("execution_capability", .str execCapability),
    ("funding_amount", fundingAmount),
    ("valuation_trend", valuationTrend),
    ("investor_quality", investorQuality),
    ("pmf_strength", pmfStrength),
    ("innovation_mentions", innovationMentions),
    ("frontier_tech_usage", frontierTechUsage),
    ("timing", timing),
    ("sentiment", sentimentOverall),
    ("reviews", reviews)]

/-- `ExternalKnowledgeBlock._safe_list` (features/external.py lines 55-60):
lists pass through, `None` becomes `[]`, and any other value is wrapped in a
singleton list. -/
def safeList (v : Value) : Value :=
  match v with
  | .list _ => v
  | .none => .list []
  | _ => .list [v]

/-- `ExternalKnowledgeBlock.build` (features/external.py lines 15-52): the
seven numeric fields with zero defaults, followed by the qualitative
knowledge summary merged in via `result.update(...)`. -/
def externalBuild (payload : PyDict) : Except PyErr PyDict := do
  let market := pyGetD payload "market" (.dict [])
  let competition := pyGetD payload "competition" (.dict [])
  let sentiment := pyGetD payload "sentiment" (.dict [])
  let compliance := pyGetD payload "compliance" (.dict [])
  let knowledge := pyGetD payload "knowledge" (.dict [])
  let marketSize ← vGetD market "size_usd" (.float 0) >>= pyFloat
  let cagr ← vGetD market "cagr" (.float 0) >>= pyFloat
  let competitorCount ← vGetD competition "competitor_count" (.int 0) >>= pyInt
  let averageSentiment ← vGetD sentiment "average" (.float 0) >>= pyFloat
  let patentCount ← vGetD compliance "patent_count" (.int 0) >>= pyInt
  let regulationMentions ← vGetD compliance "regulation_mentions" (.int 0) >>= pyInt
  let investorDiversity ← vGetD competition "investor_diversity" (.float 0) >>= pyFloat
  let result : PyDict :=
    [("market_size_usd", .float marketSize),
      ("cagr", .float cagr),
      ("competitor_count", .int competitorCount),
      ("average_sentiment", .float averageSentiment),
      ("patent_count", .int patentCount),
      ("regulation_mentions", .int regulationMentions),
      ("investor_diversity", .float investorDiversity)]
  let companyName ← vGetOpt knowledge "company_name"
  let sector ← vGetOpt knowledge "sector"
  let productType ← vGetOpt knowledge "product_type"
  let teamComplementarity ← vGetOpt knowledge "founder_team_complementarity"
  let founderIdeaFit ← vGetOpt knowledge "founder_idea_fit"
  let priorSignals ← vGetOpt knowledge "prior_signals"
  let potentialRisks ← vGetOpt knowledge "potential_risks"
  let publicSources ← vGetOpt knowledge "public_sources"
  let dataGaps ← vGetOpt knowledge "data_gaps"
  let timestampUtc ← vGetOpt knowledge "timestamp_utc"
  let summary : PyDict :=
    [("company_name", companyName),
      ("sector", sector),
      ("product_type", productType),
      ("founder_team_complementarity", teamComplementarity),
      ("founder_idea_fit", founderIdeaFit),
      ("prior_signals", safeList priorSignals),
      ("potential_risks", safeList potentialRisks),
      ("public_sources", safeList publicSources),
      ("data_gaps", safeList dataGaps),
      ("timestamp_utc", timestampUtc)]
  let foundersDetail ← vGetOpt knowledge "founders"
  let summary' := if isList foundersDetail then summary ++ [("founders", foundersDetail)] else summary
  .ok (dictUpdate result summary')

/-- `FeatureCollector._build_features` (pipeline.py lines 56-64): the three
feature mappings keyed by name. -/
def buildFeatures (payload : PyDict) : Except PyErr PyDict := do
  let prediction ← predictionBuild payload
  let founder ← founderBuild payload
  let external ← externalBuild payload
  .ok [("features_ssff", .dict prediction),
    ("features_founder", .dict founder),
    ("features_external", .dict external)]

/-- Every value of a feature mapping is a scalar (the spec's flatness). -/
def flatDict (d : PyDict) : Bool :=
  d.all fun kv => isScalar kv.2

/-- The Collector output is flat in the sense of the spec: every value of
each of the three returned feature mappings is a scalar. -/
def featuresFlat (f : PyDict) : Bool :=
  f.all fun kv =>
    match kv.2 with
    | .dict d => flatDict d
    | _ => true

/-- `OpenDataSource._load_local_profile` (sources/open_data.py lines 94-100),
with the file system abstracted as an `Option`: a missing path raises
`FileNotFoundError`, an existing one yields its parsed JSON content. -/
def loadLocalProfile (seedFile : Option PyDict) : Except PyErr PyDict :=
  match seedFile with
  | Option.none => .error .fileNotFound
  | some d => .ok d

/-- Python `payload.setdefault(k1, {})[k2] = v`: inserts `{k2: v}` when `k1`
is absent, assigns into the existing dict, and raises `TypeError` when the
existing value does not support string-key assignment. -/
def setdefaultAssign (payload : PyDict) (k1 k2 : String) (v : Value) : Except PyErr PyDict :=
  match dictLookup payload k1 with
  | Option.none => .ok (setKey payload k1 (.dict [(k2, v)]))
  | some (.dict d) => .ok (setKey payload k1 (.dict (setKey d k2 v)))
  | some _ => .error .typeError

/-- Python `payload.get("profile", {}).get(k)`. -/
def profileGet (payload : PyDict) (k : String) : Except PyErr Value :=
  vGetOpt (pyGetD payload "profile" (.dict [])) k

/-- Python `x or y`. -/
def pyOr (x y : Value) : Value :=
  if pyTruthy x then x else y

/-- `OpenDataSource.fetch` (sources/open_data.py lines 53-92).  Network
effects are abstracted as parameters: `seedFile` is the parsed seed payload
when the `profile_path` file exists, `results` are the six sub-request
payloads (already folded over their own error handling), and `enrich` is the
founder-enrichment call.  The `InvalidQuery` validation (`raise ValueError`)
runs first, before any of those parameters is consulted. -/
def fetch (query : PyDict) (seedFile : Option PyDict) (results : List PyDict)
    (enrich : Value → List Value) : Except PyErr PyDict :=
  let startupName := pyGet query "name"
  if !pyTruthy startupName && !pyTruthy (pyGet query "domain") then
    .error .valueError
  else
    let domain := pyGet query "domain"
    let localProfile := pyGet query "profile_path"
    (if pyTruthy localProfile then loadLocalProfile seedFile else .ok []) >>= fun payload₀ =>
    let payload₁ := results.foldl deepMerge payload₀
    profileGet payload₁ "domain" >>= fun profDomain =>
    let resolvedDomain := pyOr profDomain domain
    (if pyTruthy resolvedDomain then
        setdefaultAssign payload₁ "profile" "domain" resolvedDomain
      else .ok payload₁) >>= fun payload₂ =>
    let founders := pyGetD payload₂ "founders" (.list [])
    let payload₃ :=
      if pyTruthy founders then
        let enriched := enrich founders
        if !enriched.isEmpty then setKey payload₂ "founders" (.list enriched) else payload₂
      else payload₂
    profileGet payload₃ "name" >>= fun profName =>
    setdefaultAssign payload₃ "profile" "name" (pyOr profName startupName)

theorem exceptBind_ok {ε α β : Type} (a : α) (f : α → Except ε β) :
    (Except.ok a >>= f) = f a := rfl

theorem exceptBind_error {ε α β : Type} (e : ε) (f : α → Except ε β) :
    (Except.error e >>= f) = .error e := rfl

theorem exceptBind_eq_ok {ε α β : Type} {x : Except ε α} {f : α → Except ε β} {b : β} :
    (x >>= f) = .ok b ↔ ∃ a, x = .ok a ∧ f a = .ok b := by
  cases x <;> simp [exceptBind_ok, exceptBind_error]

/-- The keys of a dict are distinct, as Python dicts guarantee. -/
def keysNodup (d : PyDict) : Prop :=
  (d.map Prod.fst).Nodup

theorem dictLookup_setKey_self (d : PyDict) (k : String) (v : Value) :
    dictLookup (setKey d k v) k = some v := by
  induction d with
  | nil => simp [setKey, dictLookup]
  | cons kv rest ih =>
    obtain ⟨k', v'⟩ := kv
    by_cases h : k' = k <;> simp [setKey, dictLookup, h, ih]

theorem dictLookup_setKey_ne (d : PyDict) {k' k : String} (h : k' ≠ k) (v : Value) :
    dictLookup (setKey d k' v) k = dictLookup d k := by
  induction d with
  | nil => simp [setKey, dictLookup, h]
  | cons kv rest ih =>
    obtain ⟨k₀, v₀⟩ := kv
    by_cases h₀ : k₀ = k'
    · subst h₀; simp [setKey, dictLookup, h, ih]
    · by_cases h₁ : k₀ = k
      · subst h₁; simp [setKey, dictLookup, h₀, Ne.symm h, ih]
      · simp [setKey, dictLookup, h₀, h₁, ih]

theorem dictLookup_eq_none_of_not_mem (d : PyDict) {k : String}
    (h : k ∉ d.map Prod.fst) : dictLookup d k = Option.none := by
  induction d with
  | nil => simp [dictLookup]
  | cons kv rest ih =>
    simp only [List.map_cons, List.mem_cons, not_or] at h
    have : kv.1 ≠ k := fun hh => h.1 hh.symm
    simp [dictLookup, this, ih h.2]

theorem deepMerge_nil (base : PyDict) : deepMerge base [] = base := by
  rw [deepMerge]

theorem deepMerge_cons (base : PyDict) (k : String) (v : Value) (rest : PyDict) :
    deepMerge base ((k, v) :: rest) = deepMerge (deepMergeEntry base k v) rest := by
  rw [deepMerge]

theorem deepMerge_cons_insert {base : PyDict} {k : String} (v : Value) (rest : PyDict)
    (h : dictLookup base k = Option.none) :
    deepMerge base ((k, v) :: rest) = deepMerge (setKey base k v) rest := by
  rw [deepMerge_cons, deepMergeEntry.eq_def, h]

theorem deepMerge_cons_dict {base : PyDict} {k : String} {od : PyDict} (vd : PyDict)
    (rest : PyDict) (h : dictLookup base k = some (.dict od)) :
    deepMerge base ((k, .dict vd) :: rest)
      = deepMerge (setKey base k (.dict (deepMerge od vd))) rest := by
  rw [deepMerge_cons, deepMergeEntry.eq_def, h]

theorem deepMerge_cons_list {base : PyDict} {k : String} {ol : List Value} (vl : List Value)
    (rest : PyDict) (h : dictLookup base k = some (.list ol)) :
    deepMerge base ((k, .list vl) :: rest)
      = deepMerge (setKey base k (.list (ol ++ vl))) rest := by
  rw [deepMerge_cons, deepMergeEntry.eq_def, h]

theorem deepMerge_cons_other {base : PyDict} {k : String} {old : Value} {v : Value}
    (rest : PyDict) (h : dictLookup base k = some old)
    (hd : ¬(isDict old = true ∧ isDict v = true))
    (hl : ¬(isList old = true ∧ isList v = true)) :
    deepMerge base ((k, v) :: rest)
      = deepMerge (if isNone v then base else setKey base k v) rest := by
  rw [deepMerge_cons, deepMergeEntry.eq_def, h]
  cases old <;> cases v <;> simp_all [isDict, isList, isNone]

theorem dictLookup_deepMergeEntry_ne {k' k : String} (base : PyDict) (v : Value)
    (h : k' ≠ k) : dictLookup (deepMergeEntry base k' v) k = dictLookup base k := by
  rw [deepMergeEntry.eq_def]
  cases hl : dictLookup base k' with
  | none => cases v <;> simp [dictLookup_setKey_ne _ h]
  | some old => cases old <;> cases v <;> simp [dictLookup_setKey_ne _ h]

/-- How `_deep_merge` combines the existing value (if any) with an incoming
value at one key: insert, recursive dict merge, list concatenation, keep on
`None`, overwrite otherwise. -/
def mergedAt (old? : Option Value) (v : Value) : Value :=
  match old?, v with
  | Option.none, _ => v
  | some (.dict od), .dict vd => .dict (deepMerge od vd)
  | some (.list ol), .list vl => .list (ol ++ vl)
  | some old, .none => old
  | some _, _ => v

theorem dictLookup_deepMergeEntry_self (base : PyDict) (k : String) (v : Value) :
    dictLookup (deepMergeEntry base k v) k = some (mergedAt (dictLookup base k) v) := by
  rw [deepMergeEntry.eq_def]
  cases hl : dictLookup base k with
  | none => cases v <;> simp [mergedAt, dictLookup_setKey_self]
  | some old => cases old <;> cases v <;> simp [mergedAt, hl, dictLookup_setKey_self]

theorem deepMerge_lookup_absent (base : PyDict) {upd : PyDict} {k : String}
    (h : dictLookup upd k = Option.none) :
    dictLookup (deepMerge base upd) k = dictLookup base k := by
  induction upd generalizing base with
  | nil => rw [deepMerge_nil]
  | cons kv rest ih =>
    obtain ⟨k₀, v₀⟩ := kv
    have hk : ¬k₀ = k := by
      intro hh
      simp [dictLookup, hh] at h
    have hrest : dictLookup rest k = Option.none := by
      simpa [dictLookup, hk] using h
    rw [deepMerge_cons, ih _ hrest, dictLookup_deepMergeEntry_ne _ _ hk]

theorem deepMerge_lookup_present (base : PyDict) {upd : PyDict} {k : String} {v : Value}
    (hN : keysNodup upd) (hu : dictLookup upd k = some v) :
    dictLookup (deepMerge base upd) k = some (mergedAt (dictLookup base k) v) := by
  induction upd generalizing base with
  | nil => simp [dictLookup] at hu
  | cons kv rest ih =>
    obtain ⟨k₀, v₀⟩ := kv
    have hN' : k₀ ∉ rest.map Prod.fst ∧ keysNodup rest := by
      simpa [keysNodup, List.nodup_cons] using hN
    by_cases hk : k₀ = k
    · subst hk
      have hv : v₀ = v := by simpa [dictLookup] using hu
      subst hv
      have hrest : dictLookup rest k₀ = Option.none :=
        dictLookup_eq_none_of_not_mem rest hN'.1
      rw [deepMerge_cons, deepMerge_lookup_absent _ hrest, dictLookup_deepMergeEntry_self]
    · have hrest : dictLookup rest k = some v := by
        simpa [dictLookup, hk] using hu
      rw [deepMerge_cons, ih _ hN'.2 hrest, dictLookup_deepMergeEntry_ne _ _ hk]

theorem mergeStep_ok_lookup_ne {m m' : PyDict} {k' k : String} {v : Value}
    (hne : k' ≠ k) (hok : mergeStep m k' v = .ok m') :
    dictLookup m' k = dictLookup m k := by
  unfold mergeStep at hok
  cases hl : dictLookup m k' with
  | none =>
    rw [hl] at hok
    cases hok
    exact dictLookup_setKey_ne _ hne _
  | some old =>
    rw [hl] at hok
    cases v with
    | dict vs =>
      cases old <;> simp [pyMapping, exceptBind_ok, exceptBind_error] at hok
      all_goals subst hok
      all_goals exact dictLookup_setKey_ne _ hne _
    | list vs =>
      cases old <;> simp [pyIter, exceptBind_ok, exceptBind_error] at hok
      all_goals subst hok
      all_goals exact dictLookup_setKey_ne _ hne _
    | none => cases hok; exact dictLookup_setKey_ne _ hne _
    | bool b => cases hok; exact dictLookup_setKey_ne _ hne _
    | int n => cases hok; exact dictLookup_setKey_ne _ hne _
    | float q => cases hok; exact dictLookup_setKey_ne _ hne _
    | str s => cases hok; exact dictLookup_setKey_ne _ hne _

theorem mergeInto_lookup_absent {m r : PyDict} {p : PyDict} {k : String}
    (h : dictLookup p k = Option.none) (hok : mergeInto m p = .ok r) :
    dictLookup r k = dictLookup m k := by
  induction p generalizing m with
  | nil =>
    unfold mergeInto at hok
    cases hok
    rfl
  | cons kv rest ih =>
    obtain ⟨k₀, v₀⟩ := kv
    have hk : ¬k₀ = k := by
      intro hh
      simp [dictLookup, hh] at h
    have hrest : dictLookup rest k = Option.none := by
      simpa [dictLookup, hk] using h
    unfold mergeInto at hok
    rw [exceptBind_eq_ok] at hok
    obtain ⟨m', hstep, hrec⟩ := hok
    rw [ih hrest hrec, mergeStep_ok_lookup_ne hk hstep]

theorem mergeStep_scalar {m : PyDict} {k : String} {old v : Value}
    (hm : dictLookup m k = some old) (h1 : isDict v = false) (h2 : isList v = false) :
    mergeStep m k v = .ok (setKey m k v) := by
  unfold mergeStep
  rw [hm]
  cases v <;> simp_all [isDict, isList]

theorem mergeStep_dict {m m' : PyDict} {k : String} {old : Value} {vs : PyDict}
    (hm : dictLookup m k = some old) (hok : mergeStep m k (.dict vs) = .ok m') :
    ∃ os, old = .dict os ∧ m' = setKey m k (.dict (dictUpdate os vs)) := by
  unfold mergeStep at hok
  rw [hm] at hok
  cases old <;> simp [pyMapping, exceptBind_ok, exceptBind_error] at hok
  exact ⟨_, rfl, hok.symm⟩

theorem mergeInto_lookup_scalar {m r : PyDict} {p : PyDict} {k : String} {old v : Value}
    (hN : keysNodup p) (hm : dictLookup m k = some old) (hp : dictLookup p k = some v)
    (h1 : isDict v = false) (h2 : isList v = false) (hok : mergeInto m p = .ok r) :
    dictLookup r k = some v := by
  induction p generalizing m with
  | nil => simp [dictLookup] at hp
  | cons kv rest ih =>
    obtain ⟨k₀, v₀⟩ := kv
    have hN' : k₀ ∉ rest.map Prod.fst ∧ keysNodup rest := by
      simpa [keysNodup, List.nodup_cons] using hN
    unfold mergeInto at hok
    rw [exceptBind_eq_ok] at hok
    obtain ⟨m', hstep, hrec⟩ := hok
    by_cases hk : k₀ = k
    · subst hk
      have hv : v₀ = v := by simpa [dictLookup] using hp
      subst hv
      rw [mergeStep_scalar hm h1 h2] at hstep
      cases hstep
      have hrest : dictLookup rest k₀ = Option.none :=
        dictLookup_eq_none_of_not_mem rest hN'.1
      rw [mergeInto_lookup_absent hrest hrec, dictLookup_setKey_self]
    · have hrest : dictLookup rest k = some v := by
        simpa [dictLookup, hk] using hp
      have hm' : dictLookup m' k = some old := by
        rw [mergeStep_ok_lookup_ne hk hstep]
        exact hm
      exact ih hN'.2 hm' hrest hrec

theorem mergeInto_lookup_dict {m r : PyDict} {p : PyDict} {k : String} {old : Value}
    {vs : PyDict} (hN : keysNodup p) (hm : dictLookup m k = some old)
    (hp : dictLookup p k = some (.dict vs)) (hok : mergeInto m p = .ok r) :
    ∃ os, old = .dict os ∧ dictLookup r k = some (.dict (dictUpdate os vs)) := by
  induction p generalizing m with
  | nil => simp [dictLookup] at hp
  | cons kv rest ih =>
    obtain ⟨k₀, v₀⟩ := kv
    have hN' : k₀ ∉ rest.map Prod.fst ∧ keysNodup rest := by
      simpa [keysNodup, List.nodup_cons] using hN
    unfold mergeInto at hok
    rw [exceptBind_eq_ok] at hok
    obtain ⟨m', hstep, hrec⟩ := hok
    by_cases hk : k₀ = k
    · subst hk
      have hv : v₀ = Value.dict vs := by simpa [dictLookup] using hp
      subst hv
      obtain ⟨os, hold, hm'⟩ := mergeStep_dict hm hstep
      subst hm'
      have hrest : dictLookup rest k₀ = Option.none :=
        dictLookup_eq_none_of_not_mem rest hN'.1
      exact ⟨os, hold, by rw [mergeInto_lookup_absent hrest hrec, dictLookup_setKey_self]⟩
    · have hrest : dictLookup rest k = some (.dict vs) := by
        simpa [dictLookup, hk] using hp
      have hm' : dictLookup m' k = some old := by
        rw [mergeStep_ok_lookup_ne hk hstep]
        exact hm
      exact ih hN'.2 hm' hrest hrec

theorem mergedAt_scalar {bv uv : Value}
    (hd : ¬(isDict bv = true ∧ isDict uv = true))
    (hl : ¬(isList bv = true ∧ isList uv = true)) :
    mergedAt (some bv) uv = if isNone uv then bv else uv := by
  cases bv <;> cases uv <;> simp_all [mergedAt, isDict, isList, isNone]

/-- C1 (counterexample): in the Collector's merge fold
`FeatureCollector._merge_payloads`, a null incoming scalar does erase the
existing value: folding `{"k": 1}` then `{"k": None}` yields `{"k": None}`,
not `{"k": 1}` as the claim requires. -/
theorem c1_null_erases_counterexample :
    mergePayloads [[("k", Value.int 1)], [("k", Value.none)]] = .ok [("k", Value.none)]
    ∧ dictLookup [("k", Value.none)] "k" ≠ some (Value.int 1) :=
  ⟨rfl, by simp [dictLookup]⟩

/-- C1 (amended): in `OpenDataSource._deep_merge`, for a key present in both
payloads whose values are scalars or of mismatched types, the incoming value
replaces the existing one exactly when it is non-null, and a null incoming
value leaves the existing value unchanged; in
`FeatureCollector._merge_payloads`, by contrast, a scalar incoming value
overwrites unconditionally, null included. -/
theorem c1_null_preservation :
    (∀ (base upd : PyDict) (k : String) (bv uv : Value),
      keysNodup upd →
      dictLookup base k = some bv → dictLookup upd k = some uv →
      ¬(isDict bv = true ∧ isDict uv = true) →
      ¬(isList bv = true ∧ isList uv = true) →
      dictLookup (deepMerge base upd) k = some (if isNone uv then bv else uv))
    ∧ (∀ (m p r : PyDict) (k : String) (old v : Value),
      keysNodup p →
      dictLookup m k = some old → dictLookup p k = some v →
      isDict v = false → isList v = false →
      mergeInto m p = .ok r → dictLookup r k = some v) := by
  constructor
  · intro base upd k bv uv hN hb hu hd hl
    rw [deepMerge_lookup_present base hN hu, hb, mergedAt_scalar hd hl]
  · intro m p r k old v hN hm hp h1 h2 hok
    exact mergeInto_lookup_scalar hN hm hp h1 h2 hok

/-- C1 (witness): both parts of `c1_null_preservation` applied at concrete
inputs. -/
theorem c1_null_preservation_witness :
    dictLookup (deepMerge [("k", Value.int 1)] [("k", Value.int 2)]) "k"
      = some (if isNone (Value.int 2) then Value.int 1 else Value.int 2)
    ∧ dictLookup [("k", Value.int 3)] "k" = some (Value.int 3) :=
  ⟨c1_null_preservation.1 [("k", Value.int 1)] [("k", Value.int 2)] "k"
      (Value.int 1) (Value.int 2) (by simp [keysNodup]) rfl rfl
      (by simp [isDict]) (by simp [isList]),
    c1_null_preservation.2 [("k", Value.int 1)] [("k", Value.int 3)]
      [("k", Value.int 3)] "k" (Value.int 1) (Value.int 3)
      (by simp [keysNodup]) rfl rfl rfl rfl rfl⟩

/-- C2 (counterexample): `FeatureCollector._merge_payloads` raises a
`TypeError` when the incoming value is a mapping and the existing value is a
scalar (the splat `{**merged[key], **value}` needs a mapping on the left), so
not every type conflict merges without error. -/
theorem c2_type_conflict_counterexample :
    mergePayloads [[("k", Value.int 1)], [("k", Value.dict [("a", Value.int 2)])]]
      = .error .typeError := rfl

/-- C2 (amended): `OpenDataSource._deep_merge` handles every type conflict
without error, applying the deterministic non-null overwrite rule; but
`FeatureCollector._merge_payloads` raises `TypeError` when the incoming value
is a mapping (or sequence) and the existing value does not support the
corresponding splat, e.g. existing scalar `1` versus incoming mapping. -/
theorem c2_type_conflict_deterministic :
    (∀ (base upd : PyDict) (k : String) (bv uv : Value),
      keysNodup upd →
      dictLookup base k = some bv → dictLookup upd k = some uv →
      (isDict bv ≠ isDict uv ∨ isList bv ≠ isList uv) →
      dictLookup (deepMerge base upd) k = some (if isNone uv then bv else uv))
    ∧ mergeInto [("k", Value.int 1)] [("k", Value.dict [("a", Value.int 2)])]
      = .error .typeError := by
  constructor
  · intro base upd k bv uv hN hb hu hmis
    have hd : ¬(isDict bv = true ∧ isDict uv = true) := by
      rcases hmis with h | h <;> cases bv <;> cases uv <;> simp_all [isDict, isList]
    have hl : ¬(isList bv = true ∧ isList uv = true) := by
      rcases hmis with h | h <;> cases bv <;> cases uv <;> simp_all [isDict, isList]
    rw [deepMerge_lookup_present base hN hu, hb, mergedAt_scalar hd hl]
  · rfl

/-- C2 (witness): the deep-merge half of `c2_type_conflict_deterministic`
applied at a concrete mapping-vs-scalar conflict. -/
theorem c2_type_conflict_witness :
    dictLookup (deepMerge [("k", Value.dict [])] [("k", Value.int 5)]) "k"
      = some (if isNone (Value.int 5) then Value.dict [] else Value.int 5) :=
  c2_type_conflict_deterministic.1 [("k", Value.dict [])] [("k", Value.int 5)] "k"
    (Value.dict []) (Value.int 5) (by simp [keysNodup]) rfl rfl
    (Or.inl (by simp [isDict]))

/-- C3 (counterexample): the Collector's fold merges mappings only one level
deep: `{**merged[key], **value}` replaces the nested mapping at `"b"`
wholesale, so the depth-2 key `"x"` present only in the existing nested
mapping is lost, contradicting recursive merging at every nesting depth. -/
theorem c3_shallow_merge_counterexample :
    mergePayloads [[("a", Value.dict [("b", Value.dict [("x", Value.int 1)])])],
        [("a", Value.dict [("b", Value.dict [("y", Value.int 2)])])]]
      = .ok [("a", Value.dict [("b", Value.dict [("y", Value.int 2)])])]
    ∧ dictLookup [("y", Value.int 2)] "x" = Option.none :=
  ⟨rfl, rfl⟩

/-- C3 (amended): in `OpenDataSource._deep_merge`, mapping-vs-mapping keys
are merged by the same recursive deep merge at every depth, and a key present
only in the existing nested mapping survives; in
`FeatureCollector._merge_payloads`, mapping-vs-mapping keys are merged only
one level deep via `{**existing, **incoming}`. -/
theorem c3_recursive_merge :
    (∀ (base upd : PyDict) (k : String) (bd ud : PyDict),
      keysNodup upd →
      dictLookup base k = some (.dict bd) → dictLookup upd k = some (.dict ud) →
      dictLookup (deepMerge base upd) k = some (.dict (deepMerge bd ud)))
    ∧ (∀ (b u : PyDict) (k' : String) (w : Value),
      dictLookup b k' = some w → dictLookup u k' = Option.none →
      dictLookup (deepMerge b u) k' = some w)
    ∧ (∀ (m p r : PyDict) (k : String) (old : Value) (vs : PyDict),
      keysNodup p → dictLookup m k = some old → dictLookup p k = some (.dict vs) →
      mergeInto m p = .ok r →
      ∃ os, old = .dict os ∧ dictLookup r k = some (.dict (dictUpdate os vs))) := by
  refine ⟨?_, ?_, ?_⟩
  · intro base upd k bd ud hN hb hu
    rw [deepMerge_lookup_present base hN hu, hb]
    rfl
  · intro b u k' w hb hu
    rw [deepMerge_lookup_absent b hu, hb]
  · intro m p r k old vs hN hm hp hok
    exact mergeInto_lookup_dict hN hm hp hok

/-- C3 (witness): all three parts of `c3_recursive_merge` applied at concrete
inputs. -/
theorem c3_recursive_merge_witness :
    dictLookup (deepMerge [("a", Value.dict [("x", Value.int 1)])]
        [("a", Value.dict [("y", Value.int 2)])]) "a"
      = some (.dict (deepMerge [("x", Value.int 1)] [("y", Value.int 2)]))
    ∧ dictLookup (deepMerge [("x", Value.int 1)] []) "x" = some (Value.int 1)
    ∧ ∃ os, Value.dict [("x", Value.int 1)] = Value.dict os
        ∧ dictLookup [("a", Value.dict [("x", Value.int 1), ("y", Value.int 2)])] "a"
          = some (.dict (dictUpdate os [("y", Value.int 2)])) :=
  ⟨c3_recursive_merge.1 [("a", Value.dict [("x", Value.int 1)])]
      [("a", Value.dict [("y", Value.int 2)])] "a" [("x", Value.int 1)]
      [("y", Value.int 2)] (by simp [keysNodup]) rfl rfl,
    c3_recursive_merge.2.1 [("x", Value.int 1)] [] "x" (Value.int 1) rfl rfl,
    c3_recursive_merge.2.2 [("a", Value.dict [("x", Value.int 1)])]
      [("a", Value.dict [("y", Value.int 2)])]
      [("a", Value.dict [("x", Value.int 1), ("y", Value.int 2)])] "a"
      (Value.dict [("x", Value.int 1)]) [("y", Value.int 2)]
      (by simp [keysNodup]) rfl rfl rfl⟩

theorem bind_ne_verr {α β : Type} {x : Except PyErr α} {f : α → Except PyErr β}
    (hx : x ≠ .error .valueError) (hf : ∀ a, f a ≠ .error .valueError) :
    (x >>= f) ≠ .error .valueError := by
  cases x with
  | error e =>
    rw [exceptBind_error]
    intro hc
    injection hc with he
    exact hx (by rw [he])
  | ok a => rw [exceptBind_ok]; exact hf a

theorem loadLocalProfile_ne_verr (s : Option PyDict) :
    loadLocalProfile s ≠ .error .valueError := by
  cases s <;> simp [loadLocalProfile]

theorem profileGet_ne_verr (p : PyDict) (k : String) :
    profileGet p k ≠ .error .valueError := by
  unfold profileGet vGetOpt
  cases pyGetD p "profile" (.dict []) <;> simp

theorem setdefaultAssign_ne_verr (p : PyDict) (k1 k2 : String) (v : Value) :
    setdefaultAssign p k1 k2 v ≠ .error .valueError := by
  unfold setdefaultAssign
  cases h : dictLookup p k1 with
  | none => simp
  | some old => cases old <;> simp

/-- C4: `OpenDataSource.fetch` validates its query before anything else: when
both the name and the domain are absent (falsy), it fails with the
`InvalidQuery` `ValueError` no matter what the seed file, the network
sub-request results or the enrichment would have produced, i.e. before any
fetch is attempted; and when at least one of them is present, this validation
never fires (`fetch` never returns that `ValueError`). -/
theorem c4_invalid_query_validation :
    ∀ (query : PyDict) (seedFile : Option PyDict) (results : List PyDict)
      (enrich : Value → List Value),
      ((pyTruthy (pyGet query "name") = false ∧ pyTruthy (pyGet query "domain") = false) →
        fetch query seedFile results enrich = .error .valueError)
      ∧ ((pyTruthy (pyGet query "name") = true ∨ pyTruthy (pyGet query "domain") = true) →
        fetch query seedFile results enrich ≠ .error .valueError) := by
  intro query seedFile results enrich
  constructor
  · intro h
    unfold fetch
    simp [h.1, h.2]
  · intro h
    unfold fetch
    have hcond : (!pyTruthy (pyGet query "name")
        && !pyTruthy (pyGet query "domain")) = false := by
      rcases h with h | h <;> simp [h]
    simp only [hcond, Bool.false_eq_true, if_false]
    refine bind_ne_verr ?_ fun payload₀ => ?_
    · split
      · exact loadLocalProfile_ne_verr seedFile
      · simp
    refine bind_ne_verr (profileGet_ne_verr _ _) fun profDomain => ?_
    refine bind_ne_verr ?_ fun payload₂ => ?_
    · split
      · exact setdefaultAssign_ne_verr _ _ _ _
      · simp
    refine bind_ne_verr (profileGet_ne_verr _ _) fun profName => ?_
    exact setdefaultAssign_ne_verr _ _ _ _

/-- C4 (witness): the validation theorem applied to the empty query (fails
with the `InvalidQuery` error) and to a name-only query (validation passes). -/
theorem c4_invalid_query_validation_witness :
    fetch [] Option.none [] (fun _ => []) = .error .valueError
    ∧ fetch [("name", Value.str "Acme")] Option.none [] (fun _ => [])
      ≠ .error .valueError :=
  ⟨(c4_invalid_query_validation [] Option.none [] (fun _ => [])).1 ⟨rfl, rfl⟩,
    (c4_invalid_query_validation [("name", Value.str "Acme")] Option.none []
      (fun _ => [])).2 (Or.inl rfl)⟩

/-- C5: for every payload whose founder records the block parses
successfully, the returned `fifs_score` is a clamped rational in `[-1, 1]`;
and for the empty founder list the block returns exactly
`founder_level = "L1"`, `fifs_score = 0.0`, `founder_count = 0`. -/
theorem c5_fifs_range_and_empty :
    (∀ (payload : PyDict) (r : PyDict), founderBuild payload = .ok r →
      ∃ q : ℚ, dictLookup r "fifs_score" = some (.float q) ∧ -1 ≤ q ∧ q ≤ 1)
    ∧ founderBuild [("founders", Value.list [])]
      = .ok [("founder_level", .str "L1"), ("fifs_score", .float 0),
          ("founder_count", .int 0)] := by
  constructor
  · intro payload r hok
    unfold founderBuild at hok
    rw [exceptBind_eq_ok] at hok
    obtain ⟨founders, _, hok⟩ := hok
    rw [exceptBind_eq_ok] at hok
    obtain ⟨profiles, _, hok⟩ := hok
    by_cases hemp : profiles.isEmpty
    · rw [if_pos hemp] at hok
      cases hok
      exact ⟨0, rfl, by norm_num, by norm_num⟩
    · rw [if_neg hemp] at hok
      rw [exceptBind_eq_ok] at hok
      obtain ⟨level, _, hok⟩ := hok
      cases hok
      refine ⟨_, rfl, le_max_right _ _, max_le (min_le_right _ _) (by norm_num)⟩
  · rfl

/-- C5 (witness): the range statement applied to a concrete single-founder
payload. -/
theorem c5_fifs_range_witness :
    ∃ q : ℚ,
      dictLookup [("founder_level", Value.str "L1"), ("fifs_score", Value.float (1/2)),
          ("founder_count", Value.int 1)] "fifs_score" = some (.float q)
      ∧ -1 ≤ q ∧ q ≤ 1 :=
  c5_fifs_range_and_empty.1
    [("founders", Value.list [Value.dict [("role_alignment", Value.float (1/2))]])]
    [("founder_level", Value.str "L1"), ("fifs_score", Value.float (1/2)),
      ("founder_count", Value.int 1)]
    (by norm_num +decide [founderBuild, foundersIterable, dictLookup, pyIter,
      parseFounderValue, parseFounder, pyInt, pyFloat, pyGetD, pyTruthy, List.mapM,
      List.mapM.loop, aggregateLevel, totalScore, founderScore, educationScore,
      pyLower, lowerStr, levelOfAvg, exceptBind_ok, min_def, max_def])

theorem founderScore_mono {f₁ f₂ : FounderProfile}
    (hedu : ∃ q₁ q₂, educationScore f₁.education_level f₁.school_tier = .ok q₁
      ∧ educationScore f₂.education_level f₂.school_tier = .ok q₂ ∧ q₁ ≤ q₂)
    (hlead : f₁.leadership_experience = true → f₂.leadership_experience = true)
    (htop : f₁.top_company_experience = true → f₂.top_company_experience = true)
    (hex : f₁.previous_exits ≤ f₂.previous_exits) :
    ∃ s₁ s₂, founderScore f₁ = .ok s₁ ∧ founderScore f₂ = .ok s₂ ∧ s₁ ≤ s₂ := by
  obtain ⟨q₁, q₂, hq₁, hq₂, hq⟩ := hedu
  unfold founderScore
  rw [hq₁, hq₂]
  refine ⟨_, _, rfl, rfl, ?_⟩
  have h₁ : (if f₁.leadership_experience then (1.0:ℚ) else 0.0)
      ≤ (if f₂.leadership_experience then (1.0:ℚ) else 0.0) := by
    cases hb₁ : f₁.leadership_experience with
    | true => rw [hlead hb₁]
    | false => cases hb₂ : f₂.leadership_experience <;> norm_num
  have h₂ : (if f₁.top_company_experience then (1.5:ℚ) else 0.0)
      ≤ (if f₂.top_company_experience then (1.5:ℚ) else 0.0) := by
    cases hb₁ : f₁.top_company_experience with
    | true => rw [htop hb₁]
    | false => cases hb₂ : f₂.top_company_experience <;> norm_num
  have h₃ : min (f₁.previous_exits : ℚ) 2 * 1.5 ≤ min (f₂.previous_exits : ℚ) 2 * 1.5 := by
    have hc : (f₁.previous_exits : ℚ) ≤ (f₂.previous_exits : ℚ) := by exact_mod_cast hex
    exact mul_le_mul_of_nonneg_right (min_le_min hc le_rfl) (by norm_num)
  exact add_le_add (add_le_add (add_le_add hq h₁) h₂) h₃

theorem totalScore_mono {fs₁ fs₂ : List FounderProfile}
    (hrel : List.Forall₂ (fun f₁ f₂ =>
      (∃ q₁ q₂, educationScore f₁.education_level f₁.school_tier = .ok q₁
        ∧ educationScore f₂.education_level f₂.school_tier = .ok q₂ ∧ q₁ ≤ q₂)
      ∧ (f₁.leadership_experience = true → f₂.leadership_experience = true)
      ∧ (f₁.top_company_experience = true → f₂.top_company_experience = true)
      ∧ f₁.previous_exits ≤ f₂.previous_exits) fs₁ fs₂) :
    ∃ t₁ t₂, totalScore fs₁ = .ok t₁ ∧ totalScore fs₂ = .ok t₂ ∧ t₁ ≤ t₂ := by
  induction hrel with
  | nil => exact ⟨0, 0, rfl, rfl, le_refl 0⟩
  | cons hf hrest ih =>
    obtain ⟨s₁, s₂, hs₁, hs₂, hs⟩ := founderScore_mono hf.1 hf.2.1 hf.2.2.1 hf.2.2.2
    obtain ⟨t₁, t₂, ht₁, ht₂, ht⟩ := ih
    refine ⟨s₁ + t₁, s₂ + t₂, ?_, ?_, add_le_add hs ht⟩
    · unfold totalScore
      rw [hs₁, exceptBind_ok, ht₁, exceptBind_ok]
    · unfold totalScore
      rw [hs₂, exceptBind_ok, ht₂, exceptBind_ok]

theorem levelOfAvg_mono {a b : ℚ} (h : a ≤ b) :
    levelRank (levelOfAvg a) ≤ levelRank (levelOfAvg b) := by
  unfold levelOfAvg
  split_ifs <;> first | decide | (exfalso; linarith)

/-- C6: the founder level is monotone.  For founder lists of equal length
related pointwise — the education score (the embodiment of "raising the
education level or school tier within the ordered tiers") does not decrease,
the leadership and top-company flags only go from false to true, and the exit
count does not decrease — the aggregate level of the second list is at least
that of the first in the order `L1 < L2 < L3 < L4 < L5`. -/
theorem c6_founder_level_monotone :
    ∀ (fs₁ fs₂ : List FounderProfile) (l₁ l₂ : String),
      List.Forall₂ (fun f₁ f₂ =>
        (∃ q₁ q₂, educationScore f₁.education_level f₁.school_tier = .ok q₁
          ∧ educationScore f₂.education_level f₂.school_tier = .ok q₂ ∧ q₁ ≤ q₂)
        ∧ (f₁.leadership_experience = true → f₂.leadership_experience = true)
        ∧ (f₁.top_company_experience = true → f₂.top_company_experience = true)
        ∧ f₁.previous_exits ≤ f₂.previous_exits) fs₁ fs₂ →
      aggregateLevel fs₁ = .ok l₁ → aggregateLevel fs₂ = .ok l₂ →
      levelRank l₁ ≤ levelRank l₂ := by
  intro fs₁ fs₂ l₁ l₂ hrel h₁ h₂
  obtain ⟨t₁, t₂, ht₁, ht₂, ht⟩ := totalScore_mono hrel
  have hlen : fs₁.length = fs₂.length := hrel.length_eq
  unfold aggregateLevel at h₁ h₂
  rw [ht₁, exceptBind_ok] at h₁
  rw [ht₂, exceptBind_ok] at h₂
  injection h₁ with h₁
  injection h₂ with h₂
  subst h₁
  subst h₂
  apply levelOfAvg_mono
  rw [hlen]
  have hpos : (0 : ℚ) ≤ max (fs₂.length : ℚ) 1 := le_max_of_le_right zero_le_one
  exact div_le_div_of_nonneg_right ht hpos

/-- C6 (witness): raising one founder's leadership flag from false to true
raises the aggregate level from `L2` to `L3` on a concrete one-founder
list. -/
theorem c6_founder_level_monotone_witness :
    levelRank "L2" ≤ levelRank "L3" :=
  c6_founder_level_monotone
    [⟨Value.str "A", Value.str "Bachelors", Value.str "Tier-3", false, false, 0, 0⟩]
    [⟨Value.str "A", Value.str "Bachelors", Value.str "Tier-3", true, false, 0, 0⟩]
    "L2" "L3"
    (by
      refine List.Forall₂.cons ?_ List.Forall₂.nil
      refine ⟨⟨2, 2, ?_, ?_, le_refl 2⟩, fun _ => rfl, fun h => h, le_refl 0⟩ <;>
        norm_num +decide [educationScore, pyLower, lowerStr, exceptBind_ok])
    (by norm_num +decide [aggregateLevel, totalScore, founderScore, educationScore,
      pyLower, lowerStr, levelOfAvg, exceptBind_ok, min_def, max_def])
    (by norm_num +decide [aggregateLevel, totalScore, founderScore, educationScore,
      pyLower, lowerStr, levelOfAvg, exceptBind_ok, min_def, max_def])

/-- C7: the Prediction Block's `growth_speed` field is the bucketing of the
weighted score `0.6·(update frequency) + 0.4·(net new hires)` with non-numeric
inputs coerced to 0 by `_to_number`: `"Unknown"` when both inputs are absent,
`"Faster"` above 8, `"Slower"` below 3, `"Same"` otherwise; and the scenario
`update_frequency_per_month=10, net_new_roles_last_quarter=8` yields
`"Faster"`. -/
theorem c7_growth_speed_bucketing :
    (∀ (payload : PyDict) (r : PyDict), predictionBuild payload = .ok r →
      ∃ g, growthSpeed (pyGetD payload "profile" (.dict []))
          (pyGetD payload "hiring" (.dict [])) = .ok g
        ∧ dictLookup r "growth_speed" = some (.str g))
    ∧ (∀ (profile hiring : PyDict),
      growthSpeed (.dict profile) (.dict hiring)
        = .ok (
          if isNone (pyGet profile "update_frequency_per_month")
              ∧ isNone (pyGet hiring "net_new_roles_last_quarter") then "Unknown"
          else
            if 0.6 * toNumber (pyGet profile "update_frequency_per_month")
                + 0.4 * toNumber (pyGet hiring "net_new_roles_last_quarter") > 8 then "Faster"
            else
              if 0.6 * toNumber (pyGet profile "update_frequency_per_month")
                  + 0.4 * toNumber (pyGet hiring "net_new_roles_last_quarter") < 3 then "Slower"
              else "Same"))
    ∧ growthSpeed (.dict [("update_frequency_per_month", Value.int 10)])
        (.dict [("net_new_roles_last_quarter", Value.int 8)]) = .ok "Faster" := by
  refine ⟨?_, ?_, ?_⟩
  · intro payload r hok
    unfold predictionBuild at hok
    rw [exceptBind_eq_ok] at hok
    obtain ⟨ig, hig, hok⟩ := hok
    rw [exceptBind_eq_ok] at hok
    obtain ⟨ms, hms, hok⟩ := hok
    rw [exceptBind_eq_ok] at hok
    obtain ⟨gs, hgs, hok⟩ := hok
    rw [exceptBind_eq_ok] at hok
    obtain ⟨ma, hma, hok⟩ := hok
    rw [exceptBind_eq_ok] at hok
    obtain ⟨ec, hec, hok⟩ := hok
    rw [exceptBind_eq_ok] at hok
    obtain ⟨fa, hfa, hok⟩ := hok
    rw [exceptBind_eq_ok] at hok
    obtain ⟨vt, hvt, hok⟩ := hok
    rw [exceptBind_eq_ok] at hok
    obtain ⟨iq, hiq, hok⟩ := hok
    rw [exceptBind_eq_ok] at hok
    obtain ⟨pmf, hpmf, hok⟩ := hok
    rw [exceptBind_eq_ok] at hok
    obtain ⟨im, him, hok⟩ := hok
    rw [exceptBind_eq_ok] at hok
    obtain ⟨ft, hft, hok⟩ := hok
    rw [exceptBind_eq_ok] at hok
    obtain ⟨ti, hti, hok⟩ := hok
    rw [exceptBind_eq_ok] at hok
    obtain ⟨so, hso, hok⟩ := hok
    rw [exceptBind_eq_ok] at hok
    obtain ⟨rv, hrv, hok⟩ := hok
    cases hok
    exact ⟨gs, hgs, rfl⟩
  · intro profile hiring
    simp only [growthSpeed, vGetOpt, exceptBind_ok]
    rw [mul_comm (toNumber (pyGet profile "update_frequency_per_month")) (0.6 : ℚ),
      mul_comm (toNumber (pyGet hiring "net_new_roles_last_quarter")) (0.4 : ℚ)]
    split_ifs <;> rfl
  · norm_num [growthSpeed, vGetOpt, pyGet, dictLookup, isNone, toNumber, pyFloat,
      exceptBind_ok]

/-- C7 (witness): the field-level statement applied to the empty payload,
where `growth_speed` is `"Unknown"`. -/
theorem c7_growth_speed_witness :
    ∃ g, growthSpeed (pyGetD [] "profile" (.dict [])) (pyGetD [] "hiring" (.dict []))
        = .ok g
      ∧ dictLookup [("industry_growth", Value.str "Unknown"),
          ("market_size", Value.str "Unknown"),
          ("growth_speed", Value.str "Unknown"),
          ("market_adaptability", Value.str "Unknown"),
          ("execution_capability", Value.str "Unknown"),
          ("funding_amount", Value.str "Unknown"),
          ("valuation_trend", Value.str "Unknown"),
          ("investor_quality", Value.str "Unknown"),
          ("pmf_strength", Value.str "Unknown"),
          ("innovation_mentions", Value.str "Unknown"),
          ("frontier_tech_usage", Value.str "Unknown"),
          ("timing", Value.str "Unknown"),
          ("sentiment", Value.str "Unknown"),
          ("reviews", Value.str "Unknown")] "growth_speed" = some (.str g) :=
  c7_growth_speed_bucketing.1 [] _ rfl

theorem dictLookup_dictUpdate_not_mem (a : PyDict) {b : PyDict} {k : String}
    (h : k ∉ b.map Prod.fst) : dictLookup (dictUpdate a b) k = dictLookup a k := by
  induction b generalizing a with
  | nil => rfl
  | cons kv rest ih =>
    simp only [List.map_cons, List.mem_cons, not_or] at h
    have h₀ : kv.1 ≠ k := fun hh => h.1 hh.symm
    show dictLookup (dictUpdate (setKey a kv.1 kv.2) rest) k = dictLookup a k
    rw [ih _ h.2, dictLookup_setKey_ne _ h₀]

/-- C8 (counterexample): with the four numeric sections absent but a
non-mapping `knowledge` section present, `ExternalKnowledgeBlock.build`
raises (`knowledge.get(...)` on an `int` is an `AttributeError`) instead of
returning the all-zero output. -/
theorem c8_nonmapping_knowledge_counterexample :
    externalBuild [("knowledge", Value.int 3)] = .error .attributeError := rfl

/-- C8 (amended): for every payload in which the `market`, `competition`,
`sentiment` and `compliance` sections are absent and whose `knowledge`
section, when present, is a mapping, the External Knowledge Block returns
normally and all seven numeric fields are zero. -/
theorem c8_missing_sections_all_zero :
    ∀ (payload : PyDict),
      dictLookup payload "market" = Option.none →
      dictLookup payload "competition" = Option.none →
      dictLookup payload "sentiment" = Option.none →
      dictLookup payload "compliance" = Option.none →
      (∀ kd, dictLookup payload "knowledge" = some kd → isDict kd = true) →
      ∃ r, externalBuild payload = .ok r
        ∧ dictLookup r "market_size_usd" = some (.float 0)
        ∧ dictLookup r "cagr" = some (.float 0)
        ∧ dictLookup r "competitor_count" = some (.int 0)
        ∧ dictLookup r "average_sentiment" = some (.float 0)
        ∧ dictLookup r "patent_count" = some (.int 0)
        ∧ dictLookup r "regulation_mentions" = some (.int 0)
        ∧ dictLookup r "investor_diversity" = some (.float 0) := by
  intro payload h1 h2 h3 h4 h5
  obtain ⟨ks, hks⟩ : ∃ ks, pyGetD payload "knowledge" (.dict []) = .dict ks := by
    cases hk : dictLookup payload "knowledge" with
    | none => exact ⟨[], by simp [pyGetD, hk]⟩
    | some kd =>
      have hd := h5 kd hk
      cases kd with
      | dict xs => exact ⟨xs, by simp [pyGetD, hk]⟩
      | none => simp [isDict] at hd
      | bool b => simp [isDict] at hd
      | int n => simp [isDict] at hd
      | float q => simp [isDict] at hd
      | str s => simp [isDict] at hd
      | list l => simp [isDict] at hd
  have hbuild : externalBuild payload = .ok (dictUpdate
      [("market_size_usd", .float 0), ("cagr", .float 0),
        ("competitor_count", .int 0), ("average_sentiment", .float 0),
        ("patent_count", .int 0), ("regulation_mentions", .int 0),
        ("investor_diversity", .float 0)]
      (if isList (pyGet ks "founders") = true then
          [("company_name", pyGet ks "company_name"),
            ("sector", pyGet ks "sector"),
            ("product_type", pyGet ks "product_type"),
            ("founder_team_complementarity", pyGet ks "founder_team_complementarity"),
            ("founder_idea_fit", pyGet ks "founder_idea_fit"),
            ("prior_signals", safeList (pyGet ks "prior_signals")),
            ("potential_risks", safeList (pyGet ks "potential_risks")),
            ("public_sources", safeList (pyGet ks "public_sources")),
            ("data_gaps", safeList (pyGet ks "data_gaps")),
            ("timestamp_utc", pyGet ks "timestamp_utc")]
            ++ [("founders", pyGet ks "founders")]
        else
          [("company_name", pyGet ks "company_name"),
            ("sector", pyGet ks "sector"),
            ("product_type", pyGet ks "product_type"),
            ("founder_team_complementarity", pyGet ks "founder_team_complementarity"),
            ("founder_idea_fit", pyGet ks "founder_idea_fit"),
            ("prior_signals", safeList (pyGet ks "prior_signals")),
            ("potential_risks", safeList (pyGet ks "potential_risks")),
            ("public_sources", safeList (pyGet ks "public_sources")),
            ("data_gaps", safeList (pyGet ks "data_gaps")),
            ("timestamp_utc", pyGet ks "timestamp_utc")])) := by
    simp only [externalBuild, hks]
    simp only [pyGetD, h1, h2, h3, h4, Option.getD_none, vGetD, vGetOpt, dictLookup,
      Option.getD, pyFloat, pyInt, exceptBind_ok]
  refine ⟨_, hbuild, ?_, ?_, ?_, ?_, ?_, ?_, ?_⟩
  all_goals
    rw [dictLookup_dictUpdate_not_mem]
    · rfl
    · by_cases hfd : isList (pyGet ks "founders") = true <;> simp [hfd]

/-- C8 (witness): the all-zero statement applied to the empty payload. -/
theorem c8_missing_sections_witness :
    ∃ r, externalBuild [] = .ok r
      ∧ dictLookup r "market_size_usd" = some (.float 0)
      ∧ dictLookup r "cagr" = some (.float 0)
      ∧ dictLookup r "competitor_count" = some (.int 0)
      ∧ dictLookup r "average_sentiment" = some (.float 0)
      ∧ dictLookup r "patent_count" = some (.int 0)
      ∧ dictLookup r "regulation_mentions" = some (.int 0)
      ∧ dictLookup r "investor_diversity" = some (.float 0) :=
  c8_missing_sections_all_zero [] rfl rfl rfl rfl (fun _ h => nomatch h)

theorem flatDict_lookup {d : PyDict} {k : String} {v : Value}
    (h : flatDict d = true) (hl : dictLookup d k = some v) : isScalar v = true := by
  induction d with
  | nil => simp [dictLookup] at hl
  | cons kv rest ih =>
    simp only [flatDict, List.all_cons, Bool.and_eq_true] at h
    by_cases hk : kv.1 = k
    · obtain ⟨k₀, v₀⟩ := kv
      simp only [dictLookup] at hl
      rw [if_pos hk] at hl
      cases hl
      exact h.1
    · obtain ⟨k₀, v₀⟩ := kv
      simp only [dictLookup] at hl
      rw [if_neg hk] at hl
      exact ih (by simpa [flatDict] using h.2) hl

theorem flatDict_false_of_lookup {d : PyDict} {k : String} {v : Value}
    (hl : dictLookup d k = some v) (hv : isScalar v = false) : flatDict d = false := by
  induction d with
  | nil => simp [dictLookup] at hl
  | cons kv rest ih =>
    obtain ⟨k₀, v₀⟩ := kv
    simp only [dictLookup] at hl
    by_cases hk : k₀ = k
    · rw [if_pos hk] at hl
      cases hl
      simp [flatDict, hv]
    · rw [if_neg hk] at hl
      have := ih hl
      simp only [flatDict, List.all_cons, Bool.and_eq_false_iff]
      right
      simpa [flatDict] using this

theorem dictLookup_dictUpdate_mem (a : PyDict) {b : PyDict} {k : String} {v : Value}
    (hN : keysNodup b) (hb : dictLookup b k = some v) :
    dictLookup (dictUpdate a b) k = some v := by
  induction b generalizing a with
  | nil => simp [dictLookup] at hb
  | cons kv rest ih =>
    obtain ⟨k₀, v₀⟩ := kv
    have hN' : k₀ ∉ rest.map Prod.fst ∧ keysNodup rest := by
      simpa [keysNodup, List.nodup_cons] using hN
    show dictLookup (dictUpdate (setKey a k₀ v₀) rest) k = some v
    simp only [dictLookup] at hb
    by_cases hk : k₀ = k
    · rw [if_pos hk] at hb
      cases hb
      subst hk
      rw [dictLookup_dictUpdate_not_mem _ hN'.1, dictLookup_setKey_self]
    · rw [if_neg hk] at hb
      exact ih _ hN'.2 hb

theorem isScalar_safeList (v : Value) : isScalar (safeList v) = false := by
  cases v <;> rfl

theorem isScalar_pyGetD {d : PyDict} {k : String} {dflt : Value}
    (hd : flatDict d = true) (hdf : isScalar dflt = true) :
    isScalar (pyGetD d k dflt) = true := by
  unfold pyGetD
  cases hl : dictLookup d k with
  | none => simpa using hdf
  | some w => simpa using flatDict_lookup hd hl

theorem isScalar_vGetD {sec : Value} {k : String} {dflt v : Value}
    (hsec : ∀ d, sec = .dict d → flatDict d = true)
    (h : vGetD sec k dflt = .ok v) (hdf : isScalar dflt = true) :
    isScalar v = true := by
  cases sec with
  | dict d =>
    simp only [vGetD] at h
    injection h with h
    subst h
    exact isScalar_pyGetD (hsec _ rfl) hdf
  | none => simp [vGetD] at h
  | bool b => simp [vGetD] at h
  | int n => simp [vGetD] at h
  | float q => simp [vGetD] at h
  | str s => simp [vGetD] at h
  | list l => simp [vGetD] at h

theorem isScalar_inferIndustryGrowth {profile : Value} {ig : Value}
    (hsec : ∀ d, profile = .dict d → flatDict d = true)
    (h : inferIndustryGrowth profile = .ok ig) : isScalar ig = true := by
  cases profile with
  | none => simp [inferIndustryGrowth, vGetOpt, exceptBind_error] at h
  | bool b => simp [inferIndustryGrowth, vGetOpt, exceptBind_error] at h
  | int n => simp [inferIndustryGrowth, vGetOpt, exceptBind_error] at h
  | float q => simp [inferIndustryGrowth, vGetOpt, exceptBind_error] at h
  | str s => simp [inferIndustryGrowth, vGetOpt, exceptBind_error] at h
  | list l => simp [inferIndustryGrowth, vGetOpt, exceptBind_error] at h
  | dict d =>
  simp only [inferIndustryGrowth, vGetOpt, exceptBind_ok, exceptBind_error] at h
  split at h
  · injection h with h
    subst h
    exact isScalar_pyGetD (hsec d rfl) rfl
  · split at h
    · injection h with h
      subst h
      rfl
    · rcases hge : pyGE (pyGet d "market_growth_rate") 0.15 with e | ge
      · rw [hge, exceptBind_error] at h
        exact absurd h (by simp)
      · rw [hge, exceptBind_ok] at h
        split at h
        · injection h with h
          subst h
          rfl
        · rcases hle : pyLE (pyGet d "market_growth_rate") 0 with e | le
          · rw [hle, exceptBind_error] at h
            exact absurd h (by simp)
          · rw [hle, exceptBind_ok] at h
            split at h <;> (injection h with h; subst h; rfl)

/-- C9 (counterexample): even for the empty merged payload, the Collector's
`features_external` mapping contains sequence-valued fields (`prior_signals`
and friends are always lists), so not all three feature mappings are flat. -/
theorem c9_not_flat_counterexample :
    (Except.toOption (buildFeatures [])).map featuresFlat = some false := rfl

/-- C9 (amended): `features_founder` is always flat; `features_external` is
never flat, because its `prior_signals` field (like `potential_risks`,
`public_sources` and `data_gaps`) is always a sequence; and `features_ssff`
is flat whenever every mapping-valued section of the payload is itself flat,
since its fields are either derived label strings or pass-throughs of section
values. -/
theorem c9_feature_flatness :
    (∀ (payload r : PyDict), founderBuild payload = .ok r → flatDict r = true)
    ∧ (∀ (payload r : PyDict), externalBuild payload = .ok r → flatDict r = false)
    ∧ (∀ (payload r : PyDict),
      (∀ k d, dictLookup payload k = some (.dict d) → flatDict d = true) →
      predictionBuild payload = .ok r → flatDict r = true) := by
  refine ⟨?_, ?_, ?_⟩
  · intro payload r hok
    unfold founderBuild at hok
    rw [exceptBind_eq_ok] at hok
    obtain ⟨founders, _, hok⟩ := hok
    rw [exceptBind_eq_ok] at hok
    obtain ⟨profiles, _, hok⟩ := hok
    by_cases hemp : profiles.isEmpty
    · rw [if_pos hemp] at hok
      cases hok
      rfl
    · rw [if_neg hemp] at hok
      rw [exceptBind_eq_ok] at hok
      obtain ⟨level, _, hok⟩ := hok
      cases hok
      rfl
  · intro payload r hok
    unfold externalBuild at hok
    rw [exceptBind_eq_ok] at hok
    obtain ⟨msz, _, hok⟩ := hok
    rw [exceptBind_eq_ok] at hok
    obtain ⟨cg, _, hok⟩ := hok
    rw [exceptBind_eq_ok] at hok
    obtain ⟨cc, _, hok⟩ := hok
    rw [exceptBind_eq_ok] at hok
    obtain ⟨avs, _, hok⟩ := hok
    rw [exceptBind_eq_ok] at hok
    obtain ⟨pc, _, hok⟩ := hok
    rw [exceptBind_eq_ok] at hok
    obtain ⟨rm, _, hok⟩ := hok
    rw [exceptBind_eq_ok] at hok
    obtain ⟨ivd, _, hok⟩ := hok
    rw [exceptBind_eq_ok] at hok
    obtain ⟨cn, _, hok⟩ := hok
    rw [exceptBind_eq_ok] at hok
    obtain ⟨sec, _, hok⟩ := hok
    rw [exceptBind_eq_ok] at hok
    obtain ⟨pt, _, hok⟩ := hok
    rw [exceptBind_eq_ok] at hok
    obtain ⟨tc, _, hok⟩ := hok
    rw [exceptBind_eq_ok] at hok
    obtain ⟨fif, _, hok⟩ := hok
    rw [exceptBind_eq_ok] at hok
    obtain ⟨ps, _, hok⟩ := hok
    rw [exceptBind_eq_ok] at hok
    obtain ⟨pr, _, hok⟩ := hok
    rw [exceptBind_eq_ok] at hok
    obtain ⟨pub, _, hok⟩ := hok
    rw [exceptBind_eq_ok] at hok
    obtain ⟨dg, _, hok⟩ := hok
    rw [exceptBind_eq_ok] at hok
    obtain ⟨ts, _, hok⟩ := hok
    rw [exceptBind_eq_ok] at hok
    obtain ⟨fd, _, hok⟩ := hok
    cases hok
    apply flatDict_false_of_lookup (k := "prior_signals") (v := safeList ps)
    · apply dictLookup_dictUpdate_mem
      · cases hfd : isList fd with
        | true => simp +decide [keysNodup]
        | false => simp +decide [keysNodup]
      · cases hfd : isList fd <;> rfl
    · exact isScalar_safeList ps
  · intro payload r hsec hok
    have hs : ∀ s : String, ∀ d, pyGetD payload s (.dict []) = .dict d
        → flatDict d = true := by
      intro s d hd
      unfold pyGetD at hd
      cases hl : dictLookup payload s with
      | none =>
        rw [hl] at hd
        simp only [Option.getD_none] at hd
        injection hd with hd
        subst hd
        rfl
      | some w =>
        rw [hl, Option.getD_some] at hd
        subst hd
        exact hsec s d hl
    unfold predictionBuild at hok
    rw [exceptBind_eq_ok] at hok
    obtain ⟨ig, hig, hok⟩ := hok
    rw [exceptBind_eq_ok] at hok
    obtain ⟨ms, hms, hok⟩ := hok
    rw [exceptBind_eq_ok] at hok
    obtain ⟨gs, _, hok⟩ := hok
    rw [exceptBind_eq_ok] at hok
    obtain ⟨ma, hma, hok⟩ := hok
    rw [exceptBind_eq_ok] at hok
    obtain ⟨ec, _, hok⟩ := hok
    rw [exceptBind_eq_ok] at hok
    obtain ⟨fa, hfa, hok⟩ := hok
    rw [exceptBind_eq_ok] at hok
    obtain ⟨vt, hvt, hok⟩ := hok
    rw [exceptBind_eq_ok] at hok
    obtain ⟨iq, hiq, hok⟩ := hok
    rw [exceptBind_eq_ok] at hok
    obtain ⟨pmf, hpmf, hok⟩ := hok
    rw [exceptBind_eq_ok] at hok
    obtain ⟨im, him, hok⟩ := hok
    rw [exceptBind_eq_ok] at hok
    obtain ⟨ft, hft, hok⟩ := hok
    rw [exceptBind_eq_ok] at hok
    obtain ⟨ti, hti, hok⟩ := hok
    rw [exceptBind_eq_ok] at hok
    obtain ⟨so, hso, hok⟩ := hok
    rw [exceptBind_eq_ok] at hok
    obtain ⟨rv, hrv, hok⟩ := hok
    cases hok
    have hscalar : ∀ {x : Value}, isScalar x = true →
        ∀ {y : Value}, isScalar y = true → True := fun _ _ _ => trivial
    simp only [flatDict, List.all_cons, List.all_nil, Bool.and_eq_true, and_true]
    refine ⟨isScalar_inferIndustryGrowth (hs "profile") hig, ?_, rfl, ?_, rfl, ?_,
      ?_, ?_, ?_, ?_, ?_, ?_, ?_, ?_⟩
    · exact isScalar_vGetD (hs "profile") hms rfl
    · exact isScalar_vGetD (hs "product") hma rfl
    · exact isScalar_vGetD (hs "funding") hfa rfl
    · exact isScalar_vGetD (hs "funding") hvt rfl
    · exact isScalar_vGetD (hs "funding") hiq rfl
    · exact isScalar_vGetD (hs "product") hpmf rfl
    · exact isScalar_vGetD (hs "product") him rfl
    · exact isScalar_vGetD (hs "product") hft rfl
    · exact isScalar_vGetD (hs "profile") hti rfl
    · exact isScalar_vGetD (hs "sentiment") hso rfl
    · exact isScalar_vGetD (hs "product") hrv rfl

/-- C9 (witness): all three flatness statements applied to the empty merged
payload and the concrete outputs of the three blocks on it. -/
theorem c9_feature_flatness_witness :
    flatDict [("founder_level", Value.str "L1"), ("fifs_score", Value.float 0),
        ("founder_count", Value.int 0)] = true
    ∧ flatDict [("market_size_usd", Value.float 0), ("cagr", Value.float 0),
        ("competitor_count", Value.int 0), ("average_sentiment", Value.float 0),
        ("patent_count", Value.int 0), ("regulation_mentions", Value.int 0),
        ("investor_diversity", Value.float 0), ("company_name", Value.none),
        ("sector", Value.none), ("product_type", Value.none),
        ("founder_team_complementarity", Value.none), ("founder_idea_fit", Value.none),
        ("prior_signals", Value.list []), ("potential_risks", Value.list []),
        ("public_sources", Value.list []), ("data_gaps", Value.list []),
        ("timestamp_utc", Value.none)] = false
    ∧ flatDict [("industry_growth", Value.str "Unknown"),
        ("market_size", Value.str "Unknown"), ("growth_speed", Value.str "Unknown"),
        ("market_adaptability", Value.str "Unknown"),
        ("execution_capability", Value.str "Unknown"),
        ("funding_amount", Value.str "Unknown"), ("valuation_trend", Value.str "Unknown"),
        ("investor_quality", Value.str "Unknown"), ("pmf_strength", Value.str "Unknown"),
        ("innovation_mentions", Value.str "Unknown"),
        ("frontier_tech_usage", Value.str "Unknown"), ("timing", Value.str "Unknown"),
        ("sentiment", Value.str "Unknown"), ("reviews", Value.str "Unknown")] = true :=
  ⟨c9_feature_flatness.1 [] _ rfl,
    c9_feature_flatness.2.1 [] _ rfl,
    c9_feature_flatness.2.2 [] _ (fun _ _ h => nomatch h) rfl⟩

/-- Two parsed founders that contribute identically to the founder block's
output: equal education score and equal remaining fields. -/
def ScoreEquiv (p₁ p₂ : FounderProfile) : Prop :=
  educationScore p₁.education_level p₁.school_tier
      = educationScore p₂.education_level p₂.school_tier
  ∧ p₁.leadership_experience = p₂.leadership_experience
  ∧ p₁.top_company_experience = p₂.top_company_experience
  ∧ p₁.previous_exits = p₂.previous_exits
  ∧ p₁.role_alignment = p₂.role_alignment

/-- Relate two `Except` computations: equal errors, or results related by
`R`. -/
def ExceptRel {α β : Type} (R : α → β → Prop) :
    Except PyErr α → Except PyErr β → Prop
  | .error e₁, .error e₂ => e₁ = e₂
  | .ok a, .ok b => R a b
  | _, _ => False

theorem scoreEquiv_refl (p : FounderProfile) : ScoreEquiv p p :=
  ⟨rfl, rfl, rfl, rfl, rfl⟩

theorem founderScore_congr {p₁ p₂ : FounderProfile} (h : ScoreEquiv p₁ p₂) :
    founderScore p₁ = founderScore p₂ := by
  obtain ⟨h₁, h₂, h₃, h₄, h₅⟩ := h
  unfold founderScore
  rw [h₁, h₂, h₃, h₄]

theorem totalScore_congr {fs₁ fs₂ : List FounderProfile}
    (h : List.Forall₂ ScoreEquiv fs₁ fs₂) : totalScore fs₁ = totalScore fs₂ := by
  induction h with
  | nil => rfl
  | cons hf _ ih =>
    unfold totalScore
    rw [founderScore_congr hf, ih]

theorem alignments_congr {fs₁ fs₂ : List FounderProfile}
    (h : List.Forall₂ ScoreEquiv fs₁ fs₂) :
    fs₁.map FounderProfile.role_alignment = fs₂.map FounderProfile.role_alignment := by
  induction h with
  | nil => rfl
  | cons hf _ ih => simp [List.map_cons, hf.2.2.2.2, ih]

theorem aggregateLevel_congr {fs₁ fs₂ : List FounderProfile}
    (h : List.Forall₂ ScoreEquiv fs₁ fs₂) :
    aggregateLevel fs₁ = aggregateLevel fs₂ := by
  unfold aggregateLevel
  rw [totalScore_congr h, h.length_eq]

theorem mapM_parse_rel {L₁ L₂ : List Value}
    (h : List.Forall₂ (fun v₁ v₂ =>
      ExceptRel ScoreEquiv (parseFounderValue v₁) (parseFounderValue v₂)) L₁ L₂) :
    ExceptRel (List.Forall₂ ScoreEquiv)
      (L₁.mapM parseFounderValue) (L₂.mapM parseFounderValue) := by
  induction h with
  | nil => exact List.Forall₂.nil
  | cons hv hrest ih =>
    rename_i v₁ v₂ r₁ r₂
    rw [List.mapM_cons, List.mapM_cons]
    rcases h₁ : parseFounderValue v₁ with e₁ | p₁ <;>
      rcases h₂ : parseFounderValue v₂ with e₂ | p₂ <;>
      rw [h₁, h₂] at hv <;> simp only [ExceptRel] at hv
    · cases hv
      simp only [exceptBind_error, ExceptRel]
    · simp only [exceptBind_ok]
      rcases hm₁ : r₁.mapM parseFounderValue with f₁ | ps₁ <;>
        rcases hm₂ : r₂.mapM parseFounderValue with f₂ | ps₂ <;>
        rw [hm₁, hm₂] at ih <;> simp only [ExceptRel] at ih
      · cases ih
        simp only [exceptBind_error, ExceptRel]
      · simp only [exceptBind_ok]
        exact List.Forall₂.cons hv ih

theorem founderBuild_list_congr {L₁ L₂ : List Value}
    (h : List.Forall₂ (fun v₁ v₂ =>
      ExceptRel ScoreEquiv (parseFounderValue v₁) (parseFounderValue v₂)) L₁ L₂) :
    founderBuild [("founders", .list L₁)] = founderBuild [("founders", .list L₂)] := by
  have hm := mapM_parse_rel h
  unfold founderBuild
  have hf₁ : foundersIterable [("founders", .list L₁)] = .ok L₁ := rfl
  have hf₂ : foundersIterable [("founders", .list L₂)] = .ok L₂ := rfl
  rw [hf₁, hf₂]
  simp only [exceptBind_ok]
  rcases hm₁ : L₁.mapM parseFounderValue with e₁ | ps₁ <;>
    rcases hm₂ : L₂.mapM parseFounderValue with e₂ | ps₂ <;>
    rw [hm₁, hm₂] at hm <;> simp only [ExceptRel] at hm
  · cases hm
    simp only [exceptBind_error]
  · simp only [exceptBind_ok]
    have hlen : ps₁.length = ps₂.length := hm.length_eq
    have hemp : ps₁.isEmpty = ps₂.isEmpty := by
      cases ps₁ <;> cases ps₂ <;> simp_all
    by_cases he : ps₁.isEmpty
    · rw [if_pos he, if_pos (hemp ▸ he)]
    · rw [if_neg he, if_neg (hemp ▸ he)]
      rw [aggregateLevel_congr hm, alignments_congr hm, hlen]

theorem exceptRel_parse_refl (v : Value) :
    ExceptRel ScoreEquiv (parseFounderValue v) (parseFounderValue v) := by
  rcases h : parseFounderValue v with e | p
  · rfl
  · exact scoreEquiv_refl p

theorem forall₂_set {R : Value → Value → Prop} (hrefl : ∀ v, R v v)
    (l : List Value) (i : ℕ) {a b : Value} (hab : R a b) :
    List.Forall₂ R (l.set i a) (l.set i b) := by
  induction l generalizing i with
  | nil => exact List.Forall₂.nil
  | cons x rest ih =>
    cases i with
    | zero => exact List.Forall₂.cons hab (List.forall₂_same.mpr fun v _ => hrefl v)
    | succ j => exact List.Forall₂.cons (hrefl x) (ih j)

theorem educationScore_lower_congr {s₁ s₂ : String} (h : lowerStr s₁ = lowerStr s₂)
    (t : Value) : educationScore (.str s₁) t = educationScore (.str s₂) t := by
  unfold educationScore
  simp only [pyLower, exceptBind_ok]
  rw [h]

theorem educationScore_lower_congr_tier {s₁ s₂ : String}
    (h : lowerStr s₁ = lowerStr s₂) (l : Value) :
    educationScore l (.str s₁) = educationScore l (.str s₂) := by
  unfold educationScore
  simp only [pyLower, exceptBind_ok]
  rw [h]

theorem parseFounder_setKey_rel {key : String} {s₁ s₂ : String} (r : PyDict)
    (hkey : key = "education_level" ∨ key = "school_tier")
    (hlow : lowerStr s₁ = lowerStr s₂) :
    ExceptRel ScoreEquiv (parseFounder (setKey r key (.str s₁)))
      (parseFounder (setKey r key (.str s₂))) := by
  have hne : ∀ k' : String, k' ≠ key → ∀ v : Value,
      pyGetD (setKey r key v) k' (pyGetD r k' (.int 0)) = pyGetD r k' (pyGetD r k' (.int 0)) :=
    fun k' hk' v => by
      unfold pyGetD
      rw [dictLookup_setKey_ne _ (Ne.symm hk') v]
  have hget : ∀ (k' : String) (dflt : Value), k' ≠ key → ∀ v : Value,
      pyGetD (setKey r key v) k' dflt = pyGetD r k' dflt := fun k' dflt hk' v => by
    unfold pyGetD
    rw [dictLookup_setKey_ne _ (Ne.symm hk') v]
  have hexits : ∀ v : Value, pyGetD (setKey r key v) "previous_exits" (.int 0)
      = pyGetD r "previous_exits" (.int 0) := by
    intro v
    refine hget _ _ ?_ v
    rcases hkey with h | h <;> subst h <;> decide
  have halign : ∀ v : Value, pyGetD (setKey r key v) "role_alignment" (.float 0)
      = pyGetD r "role_alignment" (.float 0) := by
    intro v
    refine hget _ _ ?_ v
    rcases hkey with h | h <;> subst h <;> decide
  unfold parseFounder
  rw [hexits, halign, hexits, halign]
  rcases he : pyInt (pyGetD r "previous_exits" (.int 0)) with e | exits
  · simp only [exceptBind_error]
    rfl
  · simp only [exceptBind_ok]
    rcases ha : pyFloat (pyGetD r "role_alignment" (.float 0)) with e | alignment
    · simp only [exceptBind_error]
      rfl
    · simp only [exceptBind_ok]
      show ScoreEquiv _ _
      rcases hkey with h | h <;> subst h
      · refine ⟨?_, ?_, ?_, rfl, rfl⟩
        · show educationScore
              (pyGetD (setKey r "education_level" (.str s₁)) "education_level" (.str "Unknown"))
              (pyGetD (setKey r "education_level" (.str s₁)) "school_tier" (.str "Unknown"))
            = _
          rw [show pyGetD (setKey r "education_level" (.str s₁)) "education_level"
              (.str "Unknown") = .str s₁ from by
                unfold pyGetD; rw [dictLookup_setKey_self]; rfl,
            show pyGetD (setKey r "education_level" (.str s₂)) "education_level"
              (.str "Unknown") = .str s₂ from by
                unfold pyGetD; rw [dictLookup_setKey_self]; rfl,
            hget "school_tier" (.str "Unknown") (by decide) (.str s₁),
            hget "school_tier" (.str "Unknown") (by decide) (.str s₂)]
          exact educationScore_lower_congr hlow _
        · show pyTruthy (pyGetD (setKey r "education_level" (.str s₁))
              "leadership_experience" (.bool false)) = _
          rw [hget "leadership_experience" (.bool false) (by decide) (.str s₁),
            hget "leadership_experience" (.bool false) (by decide) (.str s₂)]
        · show pyTruthy (pyGetD (setKey r "education_level" (.str s₁))
              "top_company_experience" (.bool false)) = _
          rw [hget "top_company_experience" (.bool false) (by decide) (.str s₁),
            hget "top_company_experience" (.bool false) (by decide) (.str s₂)]
      · refine ⟨?_, ?_, ?_, rfl, rfl⟩
        · show educationScore
              (pyGetD (setKey r "school_tier" (.str s₁)) "education_level" (.str "Unknown"))
              (pyGetD (setKey r "school_tier" (.str s₁)) "school_tier" (.str "Unknown"))
            = _
          rw [show pyGetD (setKey r "school_tier" (.str s₁)) "school_tier"
              (.str "Unknown") = .str s₁ from by
                unfold pyGetD; rw [dictLookup_setKey_self]; rfl,
            show pyGetD (setKey r "school_tier" (.str s₂)) "school_tier"
              (.str "Unknown") = .str s₂ from by
                unfold pyGetD; rw [dictLookup_setKey_self]; rfl,
            hget "education_level" (.str "Unknown") (by decide) (.str s₁),
            hget "education_level" (.str "Unknown") (by decide) (.str s₂)]
          exact educationScore_lower_congr_tier hlow _
        · show pyTruthy (pyGetD (setKey r "school_tier" (.str s₁))
              "leadership_experience" (.bool false)) = _
          rw [hget "leadership_experience" (.bool false) (by decide) (.str s₁),
            hget "leadership_experience" (.bool false) (by decide) (.str s₂)]
        · show pyTruthy (pyGetD (setKey r "school_tier" (.str s₁))
              "top_company_experience" (.bool false)) = _
          rw [hget "top_company_experience" (.bool false) (by decide) (.str s₁),
            hget "top_company_experience" (.bool false) (by decide) (.str s₂)]

/-- C10: founder education scoring is case-insensitive.  Replacing the
`education_level` or `school_tier` string of any founder record by another
casing of the same letters (equal after lowercasing) leaves the Founder
Block's entire output — `founder_level`, `fifs_score` and `founder_count` —
unchanged. -/
theorem c10_education_case_insensitive :
    ∀ (fs : List PyDict) (i : ℕ) (key : String) (s₁ s₂ : String),
      (key = "education_level" ∨ key = "school_tier") →
      lowerStr s₁ = lowerStr s₂ →
      founderBuild [("founders", Value.list ((fs.map Value.dict).set i
          (Value.dict (setKey (fs.getD i []) key (Value.str s₁)))))]
        = founderBuild [("founders", Value.list ((fs.map Value.dict).set i
          (Value.dict (setKey (fs.getD i []) key (Value.str s₂)))))] := by
  intro fs i key s₁ s₂ hkey hlow
  apply founderBuild_list_congr
  apply forall₂_set exceptRel_parse_refl
  exact parseFounder_setKey_rel _ hkey hlow

/-- C10 (witness): the case-insensitivity theorem applied to a one-record
list with `education_level` spelled `"PhD"` versus `"phd"`. -/
theorem c10_education_case_insensitive_witness :
    founderBuild [("founders", Value.list [Value.dict
        [("education_level", Value.str "PhD")]])]
      = founderBuild [("founders", Value.list [Value.dict
        [("education_level", Value.str "phd")]])] :=
  c10_education_case_insensitive [[]] 0 "education_level" "PhD" "phd"
    (Or.inl rfl) (by decide)
